import Mathlib

/-!
# AudioShift — verification of the 432 Hz effect engine

Shallow embedding of the AudioShift repository's core:

* the PCM int16 / float32 codec (`path_c_magisk/native/audioshift_hook.cpp`,
  `pcm16ToFloat` / `floatToPcm16`),
* the simplified SoundTouch WSOLA kernel
  (`shared/dsp/third_party/soundtouch/source/SoundTouch/SoundTouch.cpp`),
* the effect instance, process hot path and command dispatcher
  (`path_c_magisk/native/audioshift_hook.cpp`, with the context struct and
  constants from `.history/path_c_magisk/native/audioshift_hook_*.h`),
* the test-facing sine generator (`shared/audio_testing/src/sine_generator.cpp`)
  and frequency validator
  (`.history/shared/audio_testing/src/frequency_validator_*.cpp`).

Modelling conventions:

* C `float`/`double` values are modelled as exact rationals (every IEEE value
  is a rational); arithmetic is exact.  Where a C expression calls a
  transcendental libm function (`powf`, `log2f`, `cosf` inside the Hann
  window, `sin`), whose exact machine value the source does not pin down, the
  embedding takes the function as an explicit parameter (a `FloatFuns`
  record).  Theorems either hold for every such parameter, or hypothesise the
  values that IEEE libm produces exactly (for example `powf(2,0) = 1`,
  `powf(2,-1) = 1/2`, `log2f(0.5) = -1`); concrete witnesses instantiate the
  record at representative rational values.
* The frequency validator works in `double` throughout its spectral maths;
  it is modelled over the real numbers with `Real.cos`, `Real.sin`,
  `Real.sqrt` (exact-real semantics of the C formulas).
* Machine integers are `Nat`/`Int`; the one place where unsigned wrap-around
  matters (`referenceStart - seekwindowSamples` on `uint32_t`) is modelled
  explicitly modulo `2^32`.
* C casts from floating point to integer types truncate toward zero; this is
  `ratTruncToInt` below.  Casts `(uint32_t)x` for nonnegative `x` are
  `Int.toNat ∘ Int.floor`.
-/

namespace AudioShift

/-- Stand-ins for the C floating-point library functions used by the code.
`pow2` is `powf(2.0f, ·)`, `log2` is `log2f`, `hann i n` is
`HannWindow::coeff(i, n)` from SoundTouch.cpp (i.e. the float evaluation of
`0.5*(1 - cosf(2*pi*i/(n-1)))`), and `sinD` is `std::sin` on `double` as used
by the sine generator.  Every IEEE result of these functions is a rational
number; the record abstracts which rational it is. -/
structure FloatFuns where
  pow2 : ℚ → ℚ
  log2 : ℚ → ℚ
  hann : ℕ → ℕ → ℚ
  sinD : ℚ → ℚ

/-- Truncation toward zero, the semantics of a C cast from a floating value
to a signed integer type. -/
def ratTruncToInt (v : ℚ) : ℤ :=
  if 0 ≤ v then ⌊v⌋ else ⌈v⌉

/-- Conversion of a nonnegative floating value to `uint32_t` (C cast
truncates; the operands in this code are nonnegative). -/
def ratToU32 (v : ℚ) : ℕ :=
  (Int.floor v).toNat

/-- Linux errno used by the hook for invalid arguments (`-EINVAL` returned). -/
def EINVAL : ℤ := 22

/-- Linux errno for a missing syscall, returned by `effectProcessReverse`. -/
def ENOSYS : ℤ := 38

/-! ## Sample format codec (audioshift_hook.cpp lines 55–80)

`pcm16ToFloat` computes `dst[i] = float(src[i]) * (1.0f/32768.0f)`.  The
scale `1/32768` is a power of two, `src[i]` has at most 16 significant bits,
so the float computation is exact and the model divides exactly by 32768.

`floatToPcm16` computes `v = src[i] * 32768.0f`, clamps to
`[-32768, 32767]`, then casts to `int16_t` (truncation toward zero). -/

/-- Conversion of one int16 sample to float32: `s / 32768`. -/
def pcm16ToFloatOne (s : ℤ) : ℚ :=
  (s : ℚ) * (1 / 32768)

/-- Conversion of one float32 sample to int16 with hard clamping, then the
C cast to `int16_t` (truncation toward zero). -/
def floatToPcm16One (f : ℚ) : ℤ :=
  let v : ℚ := f * 32768
  if 32767 < v then 32767
  else if v < -32768 then -32768
  else ratTruncToInt v

/-- Buffer-level int16 → float conversion over `frames * channels` samples. -/
def pcm16ToFloat (src : List ℤ) (frames channels : ℕ) : List ℚ :=
  (src.take (frames * channels)).map pcm16ToFloatOne

/-- Buffer-level float → int16 conversion over `frames * channels` samples. -/
def floatToPcm16 (src : List ℚ) (frames channels : ℕ) : List ℤ :=
  (src.take (frames * channels)).map floatToPcm16One

/-- C7.  `pcm16ToFloatOne` maps `[-32768, 32767]` into `[-1, 1]` and the
round trip through `floatToPcm16One` is within 1 of the original sample. -/
theorem pcm_roundtrip (s : ℤ) (h1 : -32768 ≤ s) (h2 : s ≤ 32767) :
    (-1 ≤ pcm16ToFloatOne s ∧ pcm16ToFloatOne s ≤ 1) ∧
      |floatToPcm16One (pcm16ToFloatOne s) - s| ≤ 1 := by
  have hv : pcm16ToFloatOne s * 32768 = (s : ℚ) := by
    unfold pcm16ToFloatOne; ring
  have hq1 : (-32768 : ℚ) ≤ (s : ℚ) := by exact_mod_cast h1
  have hq2 : (s : ℚ) ≤ 32767 := by exact_mod_cast h2
  constructor
  · constructor
    · unfold pcm16ToFloatOne
      nlinarith
    · unfold pcm16ToFloatOne
      nlinarith
  · have hs1 : ¬ (32767 < pcm16ToFloatOne s * 32768) := by
      rw [hv]; exact_mod_cast not_lt.mpr h2
    have hs2 : ¬ (pcm16ToFloatOne s * 32768 < -32768) := by
      rw [hv]; exact not_lt.mpr hq1
    unfold floatToPcm16One
    simp only [hs1, if_false, hs2]
    rw [hv]
    unfold ratTruncToInt
    by_cases h0 : (0:ℚ) ≤ (s:ℚ)
    · simp [h0, Int.floor_intCast]
    · simp [h0, Int.ceil_intCast]

/-- Witness for C7 at `s = -32768`. -/
theorem pcm_roundtrip_witness :
    (-1 ≤ pcm16ToFloatOne (-32768) ∧ pcm16ToFloatOne (-32768) ≤ 1) ∧
      |floatToPcm16One (pcm16ToFloatOne (-32768)) - (-32768)| ≤ 1 :=
  pcm_roundtrip (-32768) (by decide) (by decide)

/-! ## SoundTouch WSOLA kernel (SoundTouch.cpp)

State of `SoundTouch::Impl`.  The two `std::deque<float>` buffers are lists
of rationals; `inputPosition` is the `uint32_t` cursor. -/

/-- State of `SoundTouch::Impl` (SoundTouch.cpp lines 22–46). -/
structure STState where
  sampleRate : ℕ
  channels : ℕ
  pitchSemitones : ℚ
  tempo : ℚ
  rate : ℚ
  sequenceMs : ℤ
  seekwindowMs : ℤ
  overlapMs : ℤ
  sequenceSamples : ℕ
  seekwindowSamples : ℕ
  overlapSamples : ℕ
  inputBuffer : List ℚ
  outputBuffer : List ℚ
  inputPosition : ℕ
  deriving Repr, DecidableEq

namespace STState

/-- Derived sample count `(uint32_t)(sampleRate * Ms / 1000.0f)`
(SoundTouch.cpp `updateSampleCounts`).  For the sample rates and tunings in
this code the float multiplication and division are exact, so the cast is
the floor of the exact quotient. -/
def msToSamples (sampleRate : ℕ) (ms : ℤ) : ℕ :=
  ratToU32 ((sampleRate * ms : ℚ) / 1000)

/-- SoundTouch.cpp `Impl::updateSampleCounts`. -/
def updateSampleCounts (st : STState) : STState :=
  { st with
    sequenceSamples := msToSamples st.sampleRate st.sequenceMs
    seekwindowSamples := msToSamples st.sampleRate st.seekwindowMs
    overlapSamples := msToSamples st.sampleRate st.overlapMs }

/-- The `Impl` constructor: field defaults (sampleRate 48000, channels 2,
pitch 0, tempo 1, rate 1, tuning 40/15/8 ms, empty buffers, cursor 0)
followed by `updateSampleCounts`. -/
def init : STState :=
  updateSampleCounts
    { sampleRate := 48000
      channels := 2
      pitchSemitones := 0
      tempo := 1
      rate := 1
      sequenceMs := 40
      seekwindowMs := 15
      overlapMs := 8
      sequenceSamples := 0
      seekwindowSamples := 0
      overlapSamples := 0
      inputBuffer := []
      outputBuffer := []
      inputPosition := 0 }

/-- SoundTouch.cpp `pitchRatioFromSemitones`: `powf(2.0f, semitones/12.0f)`,
via the `pow2` float oracle. -/
def pitchRatioFromSemitones (O : FloatFuns) (semitones : ℚ) : ℚ :=
  O.pow2 (semitones / 12)

/-- Unsigned 32-bit subtraction `a - b` (wraps modulo `2^32`), as in the
expression `referenceStart - seekwindowSamples` on `uint32_t`. -/
def u32sub (a b : ℕ) : ℕ :=
  (((a : ℤ) - (b : ℤ)) % (2 ^ 32 : ℤ)).toNat

/-- Correlation loop body of `findBestOverlapOffset` (SoundTouch.cpp lines
74–79): dot product over `overlapSamples` positions, with each term guarded
by the bounds check on both indices. -/
def correlationAt (st : STState) (referenceStart offset : ℕ) : ℚ :=
  (List.range st.overlapSamples).foldl
    (fun acc i =>
      if referenceStart + i < st.inputBuffer.length ∧
          offset + i < st.inputBuffer.length then
        acc + st.inputBuffer.getD (referenceStart + i) 0 *
          st.inputBuffer.getD (offset + i) 0
      else acc)
    0

/-- SoundTouch.cpp `findBestOverlapOffset` (lines 62–87).  The `for` loop
starts at `searchStart = max(0U, referenceStart - seekwindowSamples)` (an
unsigned subtraction) and runs while
`offset < referenceStart && offset + overlapSamples < inputBuffer.size()`;
since `offset` increases by 1 and both bounds are fixed, the iterated
offsets are exactly the naturals in `[searchStart, stop)` with
`stop = min referenceStart (inputBuffer.size() - overlapSamples)`.
`bestCorrelation` starts at `-1e6` and is updated on strict improvement,
so ties keep the lower offset. -/
def findBestOverlapOffset (st : STState) : ℕ :=
  if st.seekwindowSamples = 0 then 0
  else
    let referenceStart := st.inputPosition
    let searchStart := max 0 (u32sub referenceStart st.seekwindowSamples)
    let stop := min referenceStart (st.inputBuffer.length - st.overlapSamples)
    let candidates := List.range' searchStart (stop - searchStart)
    let best :=
      candidates.foldl
        (fun acc offset =>
          let correlation := correlationAt st referenceStart offset
          if acc.1 < correlation then (correlation, offset) else acc)
        ((-1000000 : ℚ), (0 : ℕ))
    best.2

/-- Elementwise form of the Hann windowing pass, carrying the running
buffer index `j`. -/
def windowAux (O : FloatFuns) (channels sequenceSamples : ℕ) :
    List ℚ → ℕ → List ℚ
  | [], _ => []
  | x :: rest, j =>
    x * O.hann (j / channels) sequenceSamples ::
      windowAux O channels sequenceSamples rest (j + 1)

/-- Hann windowing pass of `processFrame` (SoundTouch.cpp lines 103–109):
`frame[i*channels + ch] *= HannWindow::coeff(i, sequenceSamples)`.  Each
index `j` of the working buffer is touched exactly once, with `i = j / ch`
(the loops run over channels and sequence positions; the elementwise form
visits the same indices once each). -/
def windowFrame (O : FloatFuns) (channels sequenceSamples : ℕ)
    (frame : List ℚ) : List ℚ :=
  windowAux O channels sequenceSamples frame 0

/-- Overlap-add pass of `processFrame` (SoundTouch.cpp lines 115–127), run
only when `inputPosition > 0 && overlapSamples > 0`.  Position
`j = i*channels + ch` is rewritten when `i < overlapSamples`,
`i < frame.size()` and `historyIdx + i*channels < inputBuffer.size()`,
where `historyIdx = overlapOffset*channels + ch`; the new value is
`fadeOut * inputBuffer[historyIdx + i*channels] + fadeIn * frame[j]` with
`fadeIn = i / overlapSamples` and `fadeOut = 1 - fadeIn`. -/
def crossfadeFrame (st : STState) (overlapOffset : ℕ) (frame : List ℚ) :
    List ℚ :=
  frame.mapIdx fun j x =>
    let i := j / st.channels
    let ch := j % st.channels
    let historyIdx := overlapOffset * st.channels + ch
    if i < st.overlapSamples ∧ i < frame.length ∧
        historyIdx + i * st.channels < st.inputBuffer.length then
      let fadeIn : ℚ := (i : ℚ) / (st.overlapSamples : ℚ)
      let fadeOut : ℚ := 1 - fadeIn
      fadeOut * st.inputBuffer.getD (historyIdx + i * st.channels) 0 +
        fadeIn * x
    else x

/-- SoundTouch.cpp `Impl::processFrame` (lines 89–141).  Guard: needs
`sequenceSamples * channels` buffered samples.  Copies the leading block,
Hann-windows it, computes the best overlap offset, cross-fades when
`inputPosition > 0 && overlapSamples > 0`, appends the block to the output
ring, then pops `advanceSamples * channels` samples (or until empty) from
the input ring and sets `inputPosition = 0`. -/
def processFrame (O : FloatFuns) (st : STState) : STState :=
  if st.inputBuffer.length < st.sequenceSamples * st.channels then st
  else
    let pitchRatio := pitchRatioFromSemitones O st.pitchSemitones
    let effectiveRate := st.rate * st.tempo / pitchRatio
    let frame := st.inputBuffer.take (st.sequenceSamples * st.channels)
    let frame := windowFrame O st.channels st.sequenceSamples frame
    let overlapOffset := findBestOverlapOffset st
    let frame :=
      if 0 < st.inputPosition ∧ 0 < st.overlapSamples then
        crossfadeFrame st overlapOffset frame
      else frame
    let advanceSamples := ratToU32 ((st.sequenceSamples : ℚ) * effectiveRate)
    { st with
      outputBuffer := st.outputBuffer ++ frame
      inputBuffer := st.inputBuffer.drop (advanceSamples * st.channels)
      inputPosition := 0 }

/-- The drain loop of `putSamples` (SoundTouch.cpp lines 180–183):
`while inputBuffer.size() >= sequenceSamples * channels: processFrame()`.
Modelled with explicit fuel; the callers supply fuel bounding the number of
iterations, which is faithful whenever each iteration removes at least one
sample (when `advanceSamples * channels = 0` while the guard holds, the C
loop does not terminate at all). -/
def processLoop (O : FloatFuns) : ℕ → STState → STState
  | 0, st => st
  | fuel + 1, st =>
    if st.sequenceSamples * st.channels ≤ st.inputBuffer.length then
      processLoop O fuel (processFrame O st)
    else st

/-- SoundTouch.cpp `putSamples` (lines 172–184).  A null `sampleData` or
zero `numSamples` is a no-op; otherwise `numSamples * channels` floats are
appended to the input ring and full frames are processed.  The C code reads
exactly `numSamples * channels` entries from the caller's buffer. -/
def putSamples (O : FloatFuns) (st : STState) (sampleData : Option (List ℚ))
    (numSamples : ℕ) : STState :=
  match sampleData with
  | none => st
  | some data =>
    if numSamples = 0 then st
    else
      let totalSamples := numSamples * st.channels
      let st1 := { st with
        inputBuffer := st.inputBuffer ++ data.take totalSamples }
      processLoop O (st1.inputBuffer.length + 1) st1

/-- SoundTouch.cpp `receiveSamples(float*, uint32_t)` (lines 186–196):
moves `min(outputBuffer.size(), maxSamples)` floats from the front of the
output ring; returns the count moved together with the moved samples and
the new state.  A zero `maxSamples` (or a null output pointer, not
modelled) moves nothing. -/
def receiveSamples (st : STState) (maxSamples : ℕ) :
    ℕ × List ℚ × STState :=
  if maxSamples = 0 then (0, [], st)
  else
    let available := min st.outputBuffer.length maxSamples
    (available, st.outputBuffer.take available,
      { st with outputBuffer := st.outputBuffer.drop available })

/-- SoundTouch.cpp `setSampleRate`. -/
def setSampleRate (st : STState) (srate : ℕ) : STState :=
  updateSampleCounts { st with sampleRate := srate }

/-- SoundTouch.cpp `setChannels` (no recount of the derived samples). -/
def setChannels (st : STState) (numChannels : ℕ) : STState :=
  { st with channels := numChannels }

/-- SoundTouch.cpp `setPitchSemiTones`. -/
def setPitchSemiTones (st : STState) (semitones : ℚ) : STState :=
  { st with pitchSemitones := semitones }

/-- SoundTouch.cpp `clear`: drop both rings, reset the cursor. -/
def clear (st : STState) : STState :=
  { st with inputBuffer := [], outputBuffer := [], inputPosition := 0 }

/-- SoundTouch.cpp `numSamples`: output-ring occupancy. -/
def numSamples (st : STState) : ℕ :=
  st.outputBuffer.length

end STState

/-! ## Effect instance and hook entry points (audioshift_hook.cpp)

Constants from `audioshift_hook.h` (the `.history` copy of the header). -/

/-- `audioshift::PITCH_SEMITONES_432_HZ` — the pre-computed float literal
`-0.3164f` (modelled by the decimal it denotes; the IEEE float value differs
only below 1e-8 and no theorem depends on its exact value). -/
def PITCH_SEMITONES_432_HZ : ℚ := -(3164 / 10000)

/-- `audioshift::DEFAULT_SAMPLE_RATE`. -/
def DEFAULT_SAMPLE_RATE : ℕ := 48000

/-- `audioshift::DEFAULT_CHANNELS`. -/
def DEFAULT_CHANNELS : ℕ := 2

/-- `audioshift::MAX_FRAME_SIZE` (samples per channel). -/
def MAX_FRAME_SIZE : ℕ := 8192

/-- Android `EFFECT_CMD_FIRST_PROPRIETARY` (fixed by the host ABI, also in
the repository's android mock and unit tests). -/
def EFFECT_CMD_FIRST_PROPRIETARY : ℕ := 0x10000

/-- `audioshift::CMD_SET_ENABLED = EFFECT_CMD_FIRST_PROPRIETARY`. -/
def CMD_SET_ENABLED : ℕ := EFFECT_CMD_FIRST_PROPRIETARY

/-- `audioshift::CMD_SET_PITCH_RATIO = EFFECT_CMD_FIRST_PROPRIETARY + 1`. -/
def CMD_SET_PITCH_RATIO : ℕ := EFFECT_CMD_FIRST_PROPRIETARY + 1

/-- `audioshift::CMD_GET_LATENCY_MS = EFFECT_CMD_FIRST_PROPRIETARY + 2`. -/
def CMD_GET_LATENCY_MS : ℕ := EFFECT_CMD_FIRST_PROPRIETARY + 2

/-- `audioshift::CMD_GET_CPU_USAGE = EFFECT_CMD_FIRST_PROPRIETARY + 3`. -/
def CMD_GET_CPU_USAGE : ℕ := EFFECT_CMD_FIRST_PROPRIETARY + 3

/-- `audioshift::CMD_RESET_STATS = EFFECT_CMD_FIRST_PROPRIETARY + 4`. -/
def CMD_RESET_STATS : ℕ := EFFECT_CMD_FIRST_PROPRIETARY + 4

/-- Numeric values of the standard `EFFECT_CMD_*` opcodes used in the
dispatcher's `switch`.  They come from Android's `hardware/audio_effect.h`,
which is outside this repository (the in-repo mocks define only
`EFFECT_CMD_FIRST_PROPRIETARY`), so the embedding keeps them as parameters;
`lawful` states the two facts every Android header revision satisfies and
the dispatch relies on: the values are pairwise distinct and all lie below
the proprietary range `0x10000`. -/
structure StdCmdCodes where
  INIT : ℕ
  SET_CONFIG : ℕ
  GET_CONFIG : ℕ
  RESET : ℕ
  ENABLE : ℕ
  DISABLE : ℕ
  GET_DESCRIPTOR : ℕ

/-- The listed standard opcodes, in `switch` order. -/
def StdCmdCodes.values (c : StdCmdCodes) : List ℕ :=
  [c.INIT, c.SET_CONFIG, c.GET_CONFIG, c.RESET, c.ENABLE, c.DISABLE,
    c.GET_DESCRIPTOR]

/-- Distinctness and smallness of the standard opcodes (true of the Android
ABI the code compiles against). -/
def StdCmdCodes.lawful (c : StdCmdCodes) : Prop :=
  c.values.Nodup ∧ ∀ x ∈ c.values, x < EFFECT_CMD_FIRST_PROPRIETARY

instance (c : StdCmdCodes) : Decidable c.lawful := by
  unfold StdCmdCodes.lawful; infer_instance

/-- Per-direction half of `effect_config_t`: access mode, sampling rate,
channel mask, format (the opaque buffer-provider pointers are carried as an
uninterpreted number so that GET_CONFIG can echo them). -/
structure BufferConfig where
  accessMode : ℕ
  samplingRate : ℕ
  channels : ℕ
  format : ℕ
  bufferProvider : ℕ
  deriving Repr, DecidableEq

/-- `effect_config_t`: input and output sub-configurations. -/
structure EffectConfig where
  inputCfg : BufferConfig
  outputCfg : BufferConfig
  deriving Repr, DecidableEq

/-- Android's `audio_channel_count_from_out_mask`: the number of set bits of
the output channel mask (`AUDIO_CHANNEL_OUT_STEREO = 0x3` has 2,
`AUDIO_CHANNEL_OUT_MONO = 0x1` has 1). -/
def audio_channel_count_from_out_mask (mask : ℕ) : ℕ :=
  if h : mask = 0 then 0
  else mask % 2 + audio_channel_count_from_out_mask (mask / 2)
termination_by mask
decreasing_by exact Nat.div_lt_self (Nat.pos_of_ne_zero h) (by decide)

/-- Android `AUDIO_CHANNEL_OUT_STEREO` mask (0x3, see examples and mocks). -/
def AUDIO_CHANNEL_OUT_STEREO : ℕ := 0x3

/-- Android `AUDIO_CHANNEL_OUT_MONO` mask (0x1). -/
def AUDIO_CHANNEL_OUT_MONO : ℕ := 0x1

/-- `audioshift::AudioShiftContext` (audioshift_hook.h).  The leading
dispatch-table pointer `itfe` is a process-wide constant and is not
modelled; `soundtouch` is the owned kernel state; `floatBuf` is the
`MAX_FRAME_SIZE * DEFAULT_CHANNELS` float scratch buffer. -/
structure AudioShiftContext where
  config : EffectConfig
  enabled : Bool
  pitchSemitones : ℚ
  soundtouch : STState
  floatBuf : List ℚ
  lastLatencyMs : ℚ
  lastCpuPercent : ℚ
  frameCount : ℕ
  deriving Repr, DecidableEq

/-- One direction of the default config installed by `EffectCreate`
(48 kHz stereo PCM16; the access mode differs between the two directions
but nothing reads it, so it is carried verbatim). -/
def defaultBufferConfig (accessMode : ℕ) : BufferConfig :=
  { accessMode := accessMode
    samplingRate := DEFAULT_SAMPLE_RATE
    channels := AUDIO_CHANNEL_OUT_STEREO
    format := 1
    bufferProvider := 0 }

/-- `EffectCreate` (audioshift_hook.cpp lines 103–162) on the happy path
(matching UUID, allocations succeed): a fresh context with the defaults,
owning a fresh SoundTouch kernel configured to stereo 48 kHz at the 432 Hz
pitch (the two `setSetting` calls for quick-seek and anti-aliasing are
no-ops in this SoundTouch).  The kernel constructor defaults already are
48 kHz stereo, and `setChannels`/`setSampleRate` are then applied again
explicitly. -/
def createContext : AudioShiftContext :=
  { config :=
      { inputCfg := defaultBufferConfig 1
        outputCfg := defaultBufferConfig 3 }
    enabled := false
    pitchSemitones := PITCH_SEMITONES_432_HZ
    soundtouch :=
      STState.setPitchSemiTones
        (STState.setSampleRate (STState.setChannels STState.init
          DEFAULT_CHANNELS) DEFAULT_SAMPLE_RATE)
        PITCH_SEMITONES_432_HZ
    floatBuf := List.replicate (MAX_FRAME_SIZE * DEFAULT_CHANNELS) 0
    lastLatencyMs := 0
    lastCpuPercent := 0
    frameCount := 0 }

/-- An `audio_buffer_t`: a frame count plus the int16 samples reachable
through the raw pointer. -/
structure AudioBuffer where
  frameCount : ℕ
  data : List ℤ
  deriving Repr, DecidableEq

/-- Result of one `effectProcess` call: the returned status, the context
afterwards, and the contents of the output buffer afterwards. -/
structure ProcessResult where
  status : ℤ
  ctx : AudioShiftContext
  outData : List ℤ
  deriving Repr, DecidableEq

/-- Overwrite the first `values.length` entries of `buf` with `values`
(the effect of writing through a pointer into a larger buffer). -/
def writePrefix (buf values : List ℚ) : List ℚ :=
  values ++ buf.drop values.length

/-- `effectProcess` (audioshift_hook.cpp lines 207–266).  `samePtr` is
whether `outBuf->raw == inBuf->raw`; when the pointers are equal the two
descriptors alias the same memory, so the input list is also the output
list.  `latMs` is the monotonic-clock delta measured around the call (wall
time is not modelled; the value is an input).  Both paths hard-code
`channels = 2`; the null-pointer guard on the three arguments is outside
the model (the arguments are values here). -/
def effectProcess (O : FloatFuns) (ctx : AudioShiftContext)
    (inBuf outBuf : AudioBuffer) (samePtr : Bool) (latMs : ℚ) :
    ProcessResult :=
  if ctx.enabled = false then
    { status := 0
      ctx := ctx
      outData :=
        if samePtr then inBuf.data
        else
          inBuf.data.take (inBuf.frameCount * 2) ++
            outBuf.data.drop (inBuf.frameCount * 2) }
  else
    let frames := inBuf.frameCount
    let channels := 2
    if frames = 0 ∨ MAX_FRAME_SIZE < frames then
      { status := -EINVAL, ctx := ctx, outData := outBuf.data }
    else
      let converted := pcm16ToFloat inBuf.data frames channels
      let buf1 := writePrefix ctx.floatBuf converted
      let st1 := STState.putSamples O ctx.soundtouch (some buf1) frames
      let recv := STState.receiveSamples st1 frames
      let received := recv.1
      let buf2 := writePrefix buf1 recv.2.1
      let st2 := recv.2.2
      let buf3 :=
        if received < frames then
          buf2.take (received * channels) ++
            List.replicate (frames * channels - received * channels) 0 ++
            buf2.drop (frames * channels)
        else buf2
      let outData :=
        floatToPcm16 buf3 frames channels ++
          outBuf.data.drop (frames * channels)
      { status := 0
        ctx := { ctx with
          soundtouch := st2
          floatBuf := buf3
          frameCount := ctx.frameCount + frames
          lastLatencyMs := latMs }
        outData := outData }

/-- Payloads exchanged with the command dispatcher.  The C interface passes
raw memory; the model tracks only well-typed payloads (every call site in
the repository sends the declared type). -/
inductive Payload where
  | ofInt (v : ℤ)
  | ofFloat (v : ℚ)
  | ofConfig (c : EffectConfig)
  | ofDescriptor
  deriving Repr, DecidableEq

/-- Byte sizes of the marshalled payload types (`sizeof(int)`,
`sizeof(float)`, `sizeof(effect_config_t)`, `sizeof(effect_descriptor_t)`).
They are target-dependent, so the embedding keeps them as parameters; all
are positive on every target. -/
structure AbiSizes where
  int32 : ℕ
  float : ℕ
  config : ℕ
  descriptor : ℕ

/-- Result of one `effectCommand` call: status, context afterwards, and the
reply written through `pReplyData` (if any). -/
structure CommandResult where
  status : ℤ
  ctx : AudioShiftContext
  reply : Option Payload
  deriving Repr, DecidableEq

/-- The reply-buffer validation pattern
`!replySize || *replySize < need || !pReplyData` used by the commands that
always write a reply.  `replySize = none` models a null `replySize`
pointer; `replyNull` models a null `pReplyData`. -/
def badReply (replySize : Option ℕ) (need : ℕ) (replyNull : Bool) : Bool :=
  match replySize with
  | none => true
  | some n => n < need || replyNull

/-- The opposite pattern `replySize && *replySize >= need && pReplyData`
used by ENABLE / DISABLE / SET_PITCH_RATIO to write an optional reply. -/
def okReply (replySize : Option ℕ) (need : ℕ) (replyNull : Bool) : Bool :=
  match replySize with
  | none => false
  | some n => need ≤ n && !replyNull

/-- `effectCommand` (audioshift_hook.cpp lines 270–388): the `switch` over
the command code, modelled as the equivalent if-chain in case order (the
case labels are pairwise distinct numbers).  `codes` carries the numeric
values of the standard opcodes and `sz` the marshalled payload sizes, both
fixed by the Android ABI outside this repository. -/
def effectCommand (codes : StdCmdCodes) (sz : AbiSizes) (O : FloatFuns)
    (ctx : AudioShiftContext) (cmdCode : ℕ) (cmdSize : ℕ)
    (cmdData : Option Payload) (replySize : Option ℕ) (replyNull : Bool) :
    CommandResult :=
  if cmdCode = codes.INIT then
    if badReply replySize sz.int32 replyNull then
      { status := -EINVAL, ctx := ctx, reply := none }
    else
      { status := 0, ctx := ctx, reply := some (.ofInt 0) }
  else if cmdCode = codes.SET_CONFIG then
    match cmdData with
    | some (.ofConfig cfg) =>
      if cmdSize < sz.config then
        { status := -EINVAL, ctx := ctx, reply := none }
      else if badReply replySize sz.int32 replyNull then
        { status := -EINVAL, ctx := ctx, reply := none }
      else
        let sr := cfg.inputCfg.samplingRate
        let ch := audio_channel_count_from_out_mask cfg.inputCfg.channels
        let st := ctx.soundtouch
        let st := STState.setSampleRate st sr
        let st := STState.setChannels st ch
        let st := STState.setPitchSemiTones st ctx.pitchSemitones
        let st := STState.clear st
        { status := 0
          ctx := { ctx with config := cfg, soundtouch := st }
          reply := some (.ofInt 0) }
    | _ => { status := -EINVAL, ctx := ctx, reply := none }
  else if cmdCode = codes.GET_CONFIG then
    if badReply replySize sz.config replyNull then
      { status := -EINVAL, ctx := ctx, reply := none }
    else
      { status := 0, ctx := ctx, reply := some (.ofConfig ctx.config) }
  else if cmdCode = codes.RESET then
    { status := 0
      ctx := { ctx with
        soundtouch := STState.clear ctx.soundtouch
        frameCount := 0
        lastLatencyMs := 0
        lastCpuPercent := 0 }
      reply := none }
  else if cmdCode = codes.ENABLE then
    let ctx1 := { ctx with enabled := true }
    { status := 0
      ctx := ctx1
      reply :=
        if okReply replySize sz.int32 replyNull then some (.ofInt 0)
        else none }
  else if cmdCode = codes.DISABLE then
    let ctx1 := { ctx with
      enabled := false
      soundtouch := STState.clear ctx.soundtouch }
    { status := 0
      ctx := ctx1
      reply :=
        if okReply replySize sz.int32 replyNull then some (.ofInt 0)
        else none }
  else if cmdCode = codes.GET_DESCRIPTOR then
    if badReply replySize sz.descriptor replyNull then
      { status := -EINVAL, ctx := ctx, reply := none }
    else
      { status := 0, ctx := ctx, reply := some .ofDescriptor }
  else if cmdCode = CMD_SET_PITCH_RATIO then
    match cmdData with
    | some (.ofFloat ratio) =>
      if cmdSize < sz.float then
        { status := -EINVAL, ctx := ctx, reply := none }
      else if ratio ≤ 0 ∨ 2 < ratio then
        { status := -EINVAL, ctx := ctx, reply := none }
      else
        let semitones := 12 * O.log2 ratio
        { status := 0
          ctx := { ctx with
            pitchSemitones := semitones
            soundtouch :=
              STState.setPitchSemiTones ctx.soundtouch semitones }
          reply :=
            if okReply replySize sz.int32 replyNull then some (.ofInt 0)
            else none }
    | _ => { status := -EINVAL, ctx := ctx, reply := none }
  else if cmdCode = CMD_GET_LATENCY_MS then
    if badReply replySize sz.float replyNull then
      { status := -EINVAL, ctx := ctx, reply := none }
    else
      { status := 0, ctx := ctx,
        reply := some (.ofFloat ctx.lastLatencyMs) }
  else if cmdCode = CMD_GET_CPU_USAGE then
    if badReply replySize sz.float replyNull then
      { status := -EINVAL, ctx := ctx, reply := none }
    else
      { status := 0, ctx := ctx,
        reply := some (.ofFloat ctx.lastCpuPercent) }
  else if cmdCode = CMD_RESET_STATS then
    { status := 0
      ctx := { ctx with
        frameCount := 0
        lastLatencyMs := 0
        lastCpuPercent := 0 }
      reply := none }
  else
    { status := -EINVAL, ctx := ctx, reply := none }

/-! ## SineGenerator (shared/audio_testing/src/sine_generator.cpp)

The generator's state is the constructor fields plus the radian phase
accumulator.  `M_PI` is the double literal `3.14159265358979323846`; the
per-sample `std::sin` is the `sinD` float oracle. -/

/-- The `M_PI` double literal used by sine_generator.cpp (a rational; the
IEEE double it denotes differs only beyond 1e-17 and no theorem depends on
its value). -/
def M_PI_LIT : ℚ := 314159265358979323846 / 100000000000000000000

/-- `kTwoPi = 2.0 * M_PI` from sine_generator.cpp. -/
def kTwoPi : ℚ := 2 * M_PI_LIT

/-- State of a `SineGenerator` (sine_generator.h fields). -/
structure SineGen where
  frequencyHz : ℚ
  sampleRate : ℕ
  channels : ℕ
  amplitudeFs : ℚ
  phaseRad : ℚ
  phaseIncrement : ℚ
  deriving Repr, DecidableEq

namespace SineGen

/-- The `SineGenerator` constructor's member initialisation (the argument
validation throws on out-of-range input and leaves no object; theorems that
need a valid generator hypothesise the constructor's checks instead). -/
def mk' (frequencyHz : ℚ) (sampleRate : ℕ) (channels : ℕ)
    (amplitudeFs : ℚ) : SineGen :=
  { frequencyHz := frequencyHz
    sampleRate := sampleRate
    channels := channels
    amplitudeFs := amplitudeFs
    phaseRad := 0
    phaseIncrement := kTwoPi * frequencyHz / (sampleRate : ℚ) }

/-- `SineGenerator::generateFloat` (sine_generator.cpp lines 75–105).  Per
frame: emit `amplitude * sin(phase)` to every channel, advance the phase by
the increment, and wrap by one `kTwoPi` when the phase reached `M_PI`.
Returns the generated interleaved samples and the updated generator. -/
def generateFloat (O : FloatFuns) (g : SineGen) : ℕ → List ℚ × SineGen
  | 0 => ([], g)
  | frames + 1 =>
    let sample := g.amplitudeFs * O.sinD g.phaseRad
    let p := g.phaseRad + g.phaseIncrement
    let p := if M_PI_LIT ≤ p then p - kTwoPi else p
    let g1 := { g with phaseRad := p }
    let rest := generateFloat O g1 frames
    (List.replicate g.channels sample ++ rest.1, rest.2)

end SineGen

/-! ## FrequencyValidator
(.history/shared/audio_testing/src/frequency_validator_20260223075415.cpp)

The validator computes in `double`; it is modelled over ℝ with the exact
real `cos`, `sin`, `sqrt` (float literals are the rationals they denote). -/

open Real in
/-- Inner accumulation of `computeDftMagnitude` (frequency_validator.cpp
lines 66–74): real and imaginary sums `re += x[n]·cos(kNorm·n)`,
`im -= x[n]·sin(kNorm·n)` over the signal starting at index `n`.  The
association order of the additions differs from the C loop; in exact real
arithmetic the sums are equal. -/
noncomputable def dftSums (kNorm : ℝ) : List ℝ → ℕ → ℝ × ℝ
  | [], _ => (0, 0)
  | s :: rest, n =>
    let acc := dftSums kNorm rest (n + 1)
    (acc.1 + s * cos (kNorm * n), acc.2 - s * sin (kNorm * n))

open Real in
/-- Elementwise Hann multiplication `windowed[n] = signal[n] · w(n)` with
`w(n) = 0.5 · (1 − cos(norm · n))` (frequency_validator.cpp lines 38–47),
starting at index `n`. -/
noncomputable def hannAux (norm : ℝ) : List ℝ → ℕ → List ℝ
  | [], _ => []
  | s :: rest, n =>
    s * (0.5 * (1 - cos (norm * n))) :: hannAux norm rest (n + 1)

open Real in
/-- `applyHannWindowInternal`: Hann window with
`norm = 2π / (N − 1)` over the whole signal. -/
noncomputable def applyHannWindowInternal (signal : List ℝ) : List ℝ :=
  hannAux (2 * π / ((signal.length - 1 : ℕ) : ℝ)) signal 0

open Real in
/-- `computeDftMagnitude` (frequency_validator.cpp lines 59–78): magnitudes
`sqrt (re² + im²)` at bins `0 … N/2`. -/
noncomputable def computeDftMagnitude (signal : List ℝ) : List ℝ :=
  let N := signal.length
  let twoPiOverN := 2 * π / (N : ℝ)
  (List.range (N / 2 + 1)).map fun (k : ℕ) =>
    let s := dftSums (twoPiOverN * (k : ℝ)) signal 0
    sqrt (s.1 * s.1 + s.2 * s.2)

/-- `findPeakBin` (frequency_validator.cpp lines 83–92): argmax over bins
`1 … mag.size() − 2`, scanning `k = 2, …` and updating on strict
improvement (so ties keep the lower bin). -/
noncomputable def findPeakBin (mag : List ℝ) : ℕ :=
  (List.range' 2 (mag.length - 1 - 2)).foldl
    (fun peak k => if mag.getD peak 0 < mag.getD k 0 then k else peak) 1

/-- `refinePeakInternal` (frequency_validator.cpp lines 103–130):
three-point quadratic interpolation around the peak; at a boundary peak or
non-negative curvature the unrefined `peak · sr / N` is returned. -/
noncomputable def refinePeakInternal (mag : List ℝ) (peak : ℕ)
    (sampleRate : ℕ) (N : ℕ) : ℝ :=
  if peak = 0 ∨ mag.length ≤ peak + 1 then
    (peak : ℝ) * (sampleRate : ℝ) / (N : ℝ)
  else
    let ym1 := mag.getD (peak - 1) 0
    let y0 := mag.getD peak 0
    let y1 := mag.getD (peak + 1) 0
    let denom := ym1 - 2 * y0 + y1
    if 0 ≤ denom then (peak : ℝ) * (sampleRate : ℝ) / (N : ℝ)
    else
      let delta := 0.5 * (ym1 - y1) / denom
      ((peak : ℝ) + delta) * (sampleRate : ℝ) / (N : ℝ)

open Real in
/-- `rmsEnergy` (frequency_validator.cpp lines 163–170):
`sqrt (Σ s² / N)`, and 0 on the empty signal. -/
noncomputable def rmsEnergy (signal : List ℝ) : ℝ :=
  if signal = [] then 0
  else sqrt ((signal.map fun s => s * s).sum / (signal.length : ℝ))

/-- `detectFrequency` (frequency_validator.cpp lines 174–194). -/
noncomputable def detectFrequency (signal : List ℝ) (sampleRate : ℕ) : ℝ :=
  if signal.length < 4 ∨ sampleRate = 0 then 0
  else if rmsEnergy signal < 1e-6 then 0
  else
    let windowed := applyHannWindowInternal signal
    let mag := computeDftMagnitude windowed
    if mag.length < 3 then 0
    else refinePeakInternal mag (findPeakBin mag) sampleRate signal.length

/-! ## Concrete instantiations used by witnesses and counterexamples -/

/-- Representative numeric values for the standard opcodes: pairwise
distinct and below the proprietary range, as `StdCmdCodes.lawful` demands. -/
def codesX : StdCmdCodes :=
  { INIT := 0, SET_CONFIG := 1, GET_CONFIG := 2, RESET := 3, ENABLE := 4,
    DISABLE := 5, GET_DESCRIPTOR := 6 }

/-- Representative payload sizes (4-byte int and float; illustrative struct
sizes — the theorems hold for any sizes). -/
def szX : AbiSizes :=
  { int32 := 4, float := 4, config := 84, descriptor := 168 }

/-- Generic witness oracle.  `pow2 0 = 1` agrees with the exact value of
`powf(2, 0)`; the other values are never relevant to the statements that
use this record. -/
def OX : FloatFuns :=
  { pow2 := fun _ => 1, log2 := fun _ => 0, hann := fun _ _ => 0,
    sinD := fun _ => 0 }

/-- Oracle for the pitch-shifted kernel runs.  `pow2 (-1) = 1/2` and
`log2 (1/2) = -1` agree with the exact IEEE values of `powf(2,-1)` and
`log2f(0.5f)`; `hann i 4` carries the exact real Hann coefficients for a
4-sample window, `0.5*(1-cos(2*pi*i/3)) = 0, 3/4, 3/4, 0` (the statements
evaluated under this oracle do not depend on these window values). -/
def Ohalf : FloatFuns :=
  { pow2 := fun q => if q = -1 then 1 / 2 else 1
    log2 := fun q => if q = 1 / 2 then -1 else 0
    hann := fun i n => if n = 4 then [0, 3 / 4, 3 / 4, 0].getD i 0 else 0
    sinD := fun _ => 0 }

/-- Kernel for the C1 counterexample: fresh SoundTouch reconfigured to
`sampleRate 100`, mono, pitch −12 semitones (as `SET_PITCH_RATIO 0.5`
installs), leaving `tempo = rate = 1`.  Derived counts: sequence 4,
seek window 1, overlap 0. -/
def c1Kernel : STState :=
  STState.setPitchSemiTones
    (STState.setChannels (STState.setSampleRate STState.init 100) 1) (-12)

/-- The C1 counterexample run: feed 8 frames of ones to `c1Kernel`. -/
def c1Run : STState :=
  STState.putSamples Ohalf c1Kernel (some (List.replicate 8 1)) 8

/-- Kernel for the C1 witness: as `c1Kernel` but with the pitch left at
its default of 0 semitones. -/
def c1KernelP0 : STState :=
  STState.setChannels (STState.setSampleRate STState.init 100) 1

/-- A stream of puts: feed the chunks to the kernel in order, each through
`putSamples`. -/
def runPuts (O : FloatFuns) (st : STState) (chunks : List (List ℚ × ℕ)) :
    STState :=
  chunks.foldl (fun s c => STState.putSamples O s (some c.1) c.2) st

/-- Kernel for the C3 evaluation: fresh SoundTouch at `sampleRate 250`,
mono, pitch 0.  Derived counts: sequence 10, seek window 3, overlap 2. -/
def c3Kernel : STState :=
  STState.setChannels (STState.setSampleRate STState.init 250) 1

/-- Input for the C3 evaluation: the samples `1, 2, …, 20`. -/
def c3Data : List ℚ :=
  [1, 2, 3, 4, 5, 6, 7, 8, 9, 10, 11, 12, 13, 14, 15, 16, 17, 18, 19, 20]

/-- The stereo 100 Hz configuration sent by SET_CONFIG in the C5 run
(`sampleRate 100` keeps the derived windows small: sequence 4, overlap 0). -/
def c5cfg : EffectConfig :=
  { inputCfg :=
      { accessMode := 1, samplingRate := 100,
        channels := AUDIO_CHANNEL_OUT_STEREO, format := 1,
        bufferProvider := 0 }
    outputCfg :=
      { accessMode := 3, samplingRate := 100,
        channels := AUDIO_CHANNEL_OUT_STEREO, format := 1,
        bufferProvider := 0 } }

/-- Context of the C5 run after
SET_CONFIG (100 Hz stereo) → SET_PITCH_RATIO 0.5 → ENABLE. -/
def c5ctx : AudioShiftContext :=
  (effectCommand codesX szX Ohalf
    (effectCommand codesX szX Ohalf
      (effectCommand codesX szX Ohalf createContext
        codesX.SET_CONFIG szX.config (some (.ofConfig c5cfg))
        (some 4) false).ctx
      CMD_SET_PITCH_RATIO szX.float (some (.ofFloat (1 / 2)))
      (some 4) false).ctx
    codesX.ENABLE 0 none (some 4) false).ctx

/-- Input buffer of the C5 run: 10 stereo frames, every sample 1024. -/
def c5inBuf : AudioBuffer :=
  { frameCount := 10, data := List.replicate 20 1024 }

/-- Output buffer of the C5 run (distinct from the input, zero-filled). -/
def c5outBuf : AudioBuffer :=
  { frameCount := 10, data := List.replicate 20 0 }

/-- The C5 process call. -/
def c5Result : ProcessResult :=
  effectProcess Ohalf c5ctx c5inBuf c5outBuf false 0

/-- The mono 100 Hz configuration used by the C10 counterexample. -/
def c10cfg : EffectConfig :=
  { inputCfg :=
      { accessMode := 1, samplingRate := 100,
        channels := AUDIO_CHANNEL_OUT_MONO, format := 1,
        bufferProvider := 0 }
    outputCfg :=
      { accessMode := 3, samplingRate := 100,
        channels := AUDIO_CHANNEL_OUT_MONO, format := 1,
        bufferProvider := 0 } }

/-- Context of the C10 run after SET_CONFIG (100 Hz mono) → ENABLE. -/
def c10ctx : AudioShiftContext :=
  (effectCommand codesX szX Ohalf
    (effectCommand codesX szX Ohalf createContext
      codesX.SET_CONFIG szX.config (some (.ofConfig c10cfg))
      (some 4) false).ctx
    codesX.ENABLE 0 none (some 4) false).ctx

/-- Input buffer of the C10 run: 3 frames, 6 int16 samples. -/
def c10inBuf : AudioBuffer :=
  { frameCount := 3, data := [100, 200, 300, 400, 500, 600] }

/-- Output buffer of the C10 run. -/
def c10outBuf : AudioBuffer :=
  { frameCount := 3, data := [7, 7, 7, 7, 7, 7] }

/-- The C10 process call under the mono configuration. -/
def c10Result : ProcessResult :=
  effectProcess Ohalf c10ctx c10inBuf c10outBuf false 0

/-- The 4-sample signal of the C8 counterexample. -/
noncomputable def dSig : List ℝ := [0, 3, 4, 0]

/-! ## Theorems -/

/-- Splitting lemma for the sine generator: generating `m + n` frames in
one call equals generating `m` frames and then `n` frames on the updated
generator. -/
theorem SineGen.generateFloat_add (O : FloatFuns) (g : SineGen)
    (m n : ℕ) :
    generateFloat O g (m + n) =
      ((generateFloat O g m).1 ++
          (generateFloat O (generateFloat O g m).2 n).1,
        (generateFloat O (generateFloat O g m).2 n).2) := by
  induction m generalizing g with
  | zero => simp [generateFloat]
  | succ m ih =>
    have hmn : m + 1 + n = (m + n) + 1 := by omega
    rw [hmn]
    simp only [generateFloat, ih]
    simp [List.append_assoc]

/-- C9.  Phase continuity of `SineGenerator::generateFloat`: for every
generator state and every even frame count `2k`, one call of `2k` frames
produces exactly the concatenation of two consecutive calls of `k` frames
each (and leaves the generator in the same state). -/
theorem sine_phase_continuity (O : FloatFuns) (g : SineGen) (k : ℕ) :
    (SineGen.generateFloat O g (k + k)).1 =
      (SineGen.generateFloat O g k).1 ++
        (SineGen.generateFloat O
          (SineGen.generateFloat O g k).2 k).1 ∧
    (SineGen.generateFloat O g (k + k)).2 =
      (SineGen.generateFloat O
        (SineGen.generateFloat O g k).2 k).2 := by
  rw [SineGen.generateFloat_add O g k k]
  exact ⟨rfl, rfl⟩

/-- C6.  While the instance is Disabled, `effectProcess` returns success,
copies the input buffer to the output buffer (the copy covers
`frameCount * 2` int16 samples, so with matching buffer sizes the output
equals the input bit for bit, and when the two raw pointers are equal the
buffers already alias), and the context — in particular the owned kernel —
is untouched. -/
theorem disabled_passthrough (O : FloatFuns) (ctx : AudioShiftContext)
    (inBuf outBuf : AudioBuffer) (samePtr : Bool) (latMs : ℚ)
    (hdis : ctx.enabled = false)
    (hin : inBuf.data.length = inBuf.frameCount * 2)
    (hout : outBuf.data.length = inBuf.frameCount * 2) :
    effectProcess O ctx inBuf outBuf samePtr latMs =
      { status := 0, ctx := ctx, outData := inBuf.data } := by
  unfold effectProcess
  rw [if_pos hdis]
  cases samePtr with
  | true => simp
  | false =>
    simp only [Bool.false_eq_true, if_false]
    congr 1
    rw [← hin, List.take_length, hin, ← hout, List.drop_length,
      List.append_nil]

/-- Witness for C6: a freshly created (hence disabled) context passes a
2-frame buffer through unchanged. -/
theorem disabled_passthrough_witness :
    effectProcess OX createContext
        { frameCount := 2, data := [5, -6, 7, -8] }
        { frameCount := 2, data := [1, 1, 1, 1] } false 3 =
      { status := 0, ctx := createContext, outData := [5, -6, 7, -8] } :=
  disabled_passthrough OX createContext
    { frameCount := 2, data := [5, -6, 7, -8] }
    { frameCount := 2, data := [1, 1, 1, 1] } false 3
    (by decide) (by decide) (by decide)

/-- Any command code matching no `case` label falls through to the
`default` branch: InvalidArgument, no state change, no reply. -/
theorem effectCommand_default (codes : StdCmdCodes) (sz : AbiSizes)
    (O : FloatFuns) (ctx : AudioShiftContext) (cmdCode : ℕ) (cmdSize : ℕ)
    (cmdData : Option Payload) (replySize : Option ℕ) (replyNull : Bool)
    (h1 : cmdCode ≠ codes.INIT) (h2 : cmdCode ≠ codes.SET_CONFIG)
    (h3 : cmdCode ≠ codes.GET_CONFIG) (h4 : cmdCode ≠ codes.RESET)
    (h5 : cmdCode ≠ codes.ENABLE) (h6 : cmdCode ≠ codes.DISABLE)
    (h7 : cmdCode ≠ codes.GET_DESCRIPTOR)
    (h8 : cmdCode ≠ CMD_SET_PITCH_RATIO)
    (h9 : cmdCode ≠ CMD_GET_LATENCY_MS)
    (h10 : cmdCode ≠ CMD_GET_CPU_USAGE)
    (h11 : cmdCode ≠ CMD_RESET_STATS) :
    effectCommand codes sz O ctx cmdCode cmdSize cmdData replySize
        replyNull =
      { status := -EINVAL, ctx := ctx, reply := none } := by
  unfold effectCommand
  rw [if_neg h1, if_neg h2, if_neg h3, if_neg h4, if_neg h5, if_neg h6,
    if_neg h7, if_neg h8, if_neg h9, if_neg h10, if_neg h11]

/-- Dispatching `EFFECT_CMD_ENABLE` always enables the instance, returns
success, and writes the int status reply exactly when the reply buffer is
present and large enough. -/
theorem effectCommand_enable (codes : StdCmdCodes) (h : codes.lawful)
    (sz : AbiSizes) (O : FloatFuns) (ctx : AudioShiftContext)
    (cmdSize : ℕ) (cmdData : Option Payload) (replySize : Option ℕ)
    (replyNull : Bool) :
    effectCommand codes sz O ctx codes.ENABLE cmdSize cmdData replySize
        replyNull =
      { status := 0
        ctx := { ctx with enabled := true }
        reply :=
          if okReply replySize sz.int32 replyNull then some (.ofInt 0)
          else none } := by
  obtain ⟨hnd, -⟩ := h
  rw [StdCmdCodes.values] at hnd
  obtain ⟨hd1, hnd⟩ := List.pairwise_cons.mp hnd
  obtain ⟨hd2, hnd⟩ := List.pairwise_cons.mp hnd
  obtain ⟨hd3, hnd⟩ := List.pairwise_cons.mp hnd
  obtain ⟨hd4, hnd⟩ := List.pairwise_cons.mp hnd
  have e1 : codes.ENABLE ≠ codes.INIT :=
    Ne.symm (hd1 codes.ENABLE (by simp))
  have e2 : codes.ENABLE ≠ codes.SET_CONFIG :=
    Ne.symm (hd2 codes.ENABLE (by simp))
  have e3 : codes.ENABLE ≠ codes.GET_CONFIG :=
    Ne.symm (hd3 codes.ENABLE (by simp))
  have e4 : codes.ENABLE ≠ codes.RESET :=
    Ne.symm (hd4 codes.ENABLE (by simp))
  unfold effectCommand
  rw [if_neg e1, if_neg e2, if_neg e3, if_neg e4, if_pos rfl]

/-- C2 (amended).  `CMD_SET_ENABLED` (0x10000) is declared in the
proprietary command enum but the dispatcher has no case for it, so it falls
through to `default`: it returns InvalidArgument and leaves the instance
unchanged for every argument tuple, whereas `EFFECT_CMD_ENABLE` sets the
enabled flag and returns success — the two opcodes are not equivalent. -/
theorem set_enabled_falls_to_default (codes : StdCmdCodes)
    (h : codes.lawful) (sz : AbiSizes) (O : FloatFuns)
    (ctx : AudioShiftContext) (cmdSize : ℕ) (cmdData : Option Payload)
    (replySize : Option ℕ) (replyNull : Bool) :
    effectCommand codes sz O ctx CMD_SET_ENABLED cmdSize cmdData
        replySize replyNull =
      { status := -EINVAL, ctx := ctx, reply := none } ∧
    effectCommand codes sz O ctx codes.ENABLE cmdSize cmdData replySize
        replyNull =
      { status := 0
        ctx := { ctx with enabled := true }
        reply :=
          if okReply replySize sz.int32 replyNull then some (.ofInt 0)
          else none } := by
  obtain ⟨hnd0, hsm⟩ := h
  have s1 := hsm codes.INIT (by simp [StdCmdCodes.values])
  have s2 := hsm codes.SET_CONFIG (by simp [StdCmdCodes.values])
  have s3 := hsm codes.GET_CONFIG (by simp [StdCmdCodes.values])
  have s4 := hsm codes.RESET (by simp [StdCmdCodes.values])
  have s5 := hsm codes.ENABLE (by simp [StdCmdCodes.values])
  have s6 := hsm codes.DISABLE (by simp [StdCmdCodes.values])
  have s7 := hsm codes.GET_DESCRIPTOR (by simp [StdCmdCodes.values])
  rw [EFFECT_CMD_FIRST_PROPRIETARY] at s1 s2 s3 s4 s5 s6 s7
  refine ⟨effectCommand_default codes sz O ctx CMD_SET_ENABLED cmdSize
    cmdData replySize replyNull ?_ ?_ ?_ ?_ ?_ ?_ ?_ ?_ ?_ ?_ ?_,
    effectCommand_enable codes ⟨hnd0, hsm⟩ sz O ctx cmdSize cmdData
      replySize replyNull⟩
  all_goals
    simp only [CMD_SET_ENABLED, CMD_SET_PITCH_RATIO, CMD_GET_LATENCY_MS,
      CMD_GET_CPU_USAGE, CMD_RESET_STATS, EFFECT_CMD_FIRST_PROPRIETARY]
  all_goals omega

/-- Witness for C2 (amended), at the representative opcode values: the
dispatcher rejects 0x10000 and leaves a fresh context untouched, while
ENABLE succeeds. -/
theorem set_enabled_falls_to_default_witness :
    effectCommand codesX szX OX createContext CMD_SET_ENABLED 0 none
        (some 4) false =
      { status := -EINVAL, ctx := createContext, reply := none } ∧
    effectCommand codesX szX OX createContext codesX.ENABLE 0 none
        (some 4) false =
      { status := 0
        ctx := { createContext with enabled := true }
        reply :=
          if okReply (some 4) szX.int32 false then some (.ofInt 0)
          else none } :=
  set_enabled_falls_to_default codesX (by decide) szX OX createContext 0
    none (some 4) false

/-- C2 counterexample.  At the concrete opcode values, dispatching
`CMD_SET_ENABLED` on a fresh (disabled) instance does not behave like
`EFFECT_CMD_ENABLE`: the former returns `-EINVAL` and leaves the instance
disabled, the latter returns 0 and enables it. -/
theorem set_enabled_not_alias_of_enable :
    (effectCommand codesX szX OX createContext CMD_SET_ENABLED 0 none
        (some 4) false).status = -EINVAL ∧
    (effectCommand codesX szX OX createContext codesX.ENABLE 0 none
        (some 4) false).status = 0 ∧
    (effectCommand codesX szX OX createContext CMD_SET_ENABLED 0 none
        (some 4) false).status ≠
      (effectCommand codesX szX OX createContext codesX.ENABLE 0 none
        (some 4) false).status ∧
    (effectCommand codesX szX OX createContext CMD_SET_ENABLED 0 none
        (some 4) false).ctx.enabled = false ∧
    (effectCommand codesX szX OX createContext codesX.ENABLE 0 none
        (some 4) false).ctx.enabled = true := by
  refine ⟨rfl, rfl, ?_, rfl, rfl⟩
  intro hc
  simp only [effectCommand] at hc
  norm_num [codesX, CMD_SET_ENABLED, EFFECT_CMD_FIRST_PROPRIETARY,
    CMD_SET_PITCH_RATIO, CMD_GET_LATENCY_MS, CMD_GET_CPU_USAGE,
    CMD_RESET_STATS, EINVAL, badReply, okReply, szX] at hc

/-- With an unusable reply buffer the optional-reply pattern never fires. -/
theorem okReply_eq_false_of_badReply (replySize : Option ℕ) (need : ℕ)
    (replyNull : Bool) (h : badReply replySize need replyNull = true) :
    okReply replySize need replyNull = false := by
  cases replySize with
  | none => rfl
  | some n =>
    simp only [badReply, Bool.or_eq_true, decide_eq_true_eq] at h
    rcases h with h | h
    · simp [okReply, Nat.not_le.mpr h]
    · simp [okReply, h]

/-- C4 (amended).  With a null reply pointer, a null reply-size pointer or
an undersized reply, the commands INIT, SET_CONFIG, GET_CONFIG,
GET_DESCRIPTOR, GET_LATENCY_MS and GET_CPU_USAGE return InvalidArgument
and leave the instance (enabled flag, config, pitch, statistics, kernel)
unchanged; ENABLE, DISABLE and SET_PITCH_RATIO instead treat the reply as
optional — with the same unusable reply buffer they still perform their
state change and return success, writing no reply. -/
theorem reply_validation (codes : StdCmdCodes) (h : codes.lawful)
    (sz : AbiSizes) (O : FloatFuns) (ctx : AudioShiftContext)
    (cmdSize : ℕ) (cmdData : Option Payload) (replySize : Option ℕ)
    (replyNull : Bool) :
    (badReply replySize sz.int32 replyNull = true →
      effectCommand codes sz O ctx codes.INIT cmdSize cmdData replySize
          replyNull =
        { status := -EINVAL, ctx := ctx, reply := none } ∧
      effectCommand codes sz O ctx codes.SET_CONFIG cmdSize cmdData
          replySize replyNull =
        { status := -EINVAL, ctx := ctx, reply := none }) ∧
    (badReply replySize sz.config replyNull = true →
      effectCommand codes sz O ctx codes.GET_CONFIG cmdSize cmdData
          replySize replyNull =
        { status := -EINVAL, ctx := ctx, reply := none }) ∧
    (badReply replySize sz.descriptor replyNull = true →
      effectCommand codes sz O ctx codes.GET_DESCRIPTOR cmdSize cmdData
          replySize replyNull =
        { status := -EINVAL, ctx := ctx, reply := none }) ∧
    (badReply replySize sz.float replyNull = true →
      effectCommand codes sz O ctx CMD_GET_LATENCY_MS cmdSize cmdData
          replySize replyNull =
        { status := -EINVAL, ctx := ctx, reply := none } ∧
      effectCommand codes sz O ctx CMD_GET_CPU_USAGE cmdSize cmdData
          replySize replyNull =
        { status := -EINVAL, ctx := ctx, reply := none }) ∧
    (badReply replySize sz.int32 replyNull = true →
      effectCommand codes sz O ctx codes.ENABLE cmdSize cmdData replySize
          replyNull =
        { status := 0, ctx := { ctx with enabled := true },
          reply := none } ∧
      effectCommand codes sz O ctx codes.DISABLE cmdSize cmdData
          replySize replyNull =
        { status := 0
          ctx := { ctx with
            enabled := false
            soundtouch := STState.clear ctx.soundtouch }
          reply := none } ∧
      ∀ ratio : ℚ, 0 < ratio → ratio ≤ 2 → sz.float ≤ cmdSize →
        effectCommand codes sz O ctx CMD_SET_PITCH_RATIO cmdSize
            (some (.ofFloat ratio)) replySize replyNull =
          { status := 0
            ctx := { ctx with
              pitchSemitones := 12 * O.log2 ratio
              soundtouch :=
                STState.setPitchSemiTones ctx.soundtouch
                  (12 * O.log2 ratio) }
            reply := none }) := by
  obtain ⟨hnd, hsm⟩ := h
  have s1 := hsm codes.INIT (by simp [StdCmdCodes.values])
  have s2 := hsm codes.SET_CONFIG (by simp [StdCmdCodes.values])
  have s3 := hsm codes.GET_CONFIG (by simp [StdCmdCodes.values])
  have s4 := hsm codes.RESET (by simp [StdCmdCodes.values])
  have s5 := hsm codes.ENABLE (by simp [StdCmdCodes.values])
  have s6 := hsm codes.DISABLE (by simp [StdCmdCodes.values])
  have s7 := hsm codes.GET_DESCRIPTOR (by simp [StdCmdCodes.values])
  rw [EFFECT_CMD_FIRST_PROPRIETARY] at s1 s2 s3 s4 s5 s6 s7
  have eP : CMD_SET_PITCH_RATIO = 65537 := rfl
  have eL : CMD_GET_LATENCY_MS = 65538 := rfl
  have eU : CMD_GET_CPU_USAGE = 65539 := rfl
  have eS : CMD_RESET_STATS = 65540 := rfl
  have hnd' := hnd
  rw [StdCmdCodes.values] at hnd'
  obtain ⟨hd1, hnd'⟩ := List.pairwise_cons.mp hnd'
  obtain ⟨hd2, hnd'⟩ := List.pairwise_cons.mp hnd'
  obtain ⟨hd3, hnd'⟩ := List.pairwise_cons.mp hnd'
  obtain ⟨hd4, hnd'⟩ := List.pairwise_cons.mp hnd'
  obtain ⟨hd5, hnd'⟩ := List.pairwise_cons.mp hnd'
  obtain ⟨hd6, hnd'⟩ := List.pairwise_cons.mp hnd'
  refine ⟨fun hbad => ⟨?_, ?_⟩, fun hbad => ?_, fun hbad => ?_,
    fun hbad => ⟨?_, ?_⟩, fun hbad => ⟨?_, ?_, fun ratio hr1 hr2 hcs => ?_⟩⟩
  · unfold effectCommand
    rw [if_pos rfl]
    simp [hbad]
  · unfold effectCommand
    rw [if_neg (Ne.symm (hd1 codes.SET_CONFIG (by simp))), if_pos rfl]
    rcases cmdData with - | p
    · rfl
    · rcases p with v | v | c | -
      · rfl
      · rfl
      · by_cases hcs : cmdSize < sz.config <;> simp [hcs, hbad]
      · rfl
  · unfold effectCommand
    rw [if_neg (Ne.symm (hd1 codes.GET_CONFIG (by simp))),
      if_neg (Ne.symm (hd2 codes.GET_CONFIG (by simp))), if_pos rfl]
    simp [hbad]
  · unfold effectCommand
    rw [if_neg (Ne.symm (hd1 codes.GET_DESCRIPTOR (by simp))),
      if_neg (Ne.symm (hd2 codes.GET_DESCRIPTOR (by simp))),
      if_neg (Ne.symm (hd3 codes.GET_DESCRIPTOR (by simp))),
      if_neg (Ne.symm (hd4 codes.GET_DESCRIPTOR (by simp))),
      if_neg (Ne.symm (hd5 codes.GET_DESCRIPTOR (by simp))),
      if_neg (Ne.symm (hd6 codes.GET_DESCRIPTOR (by simp))), if_pos rfl]
    simp [hbad]
  · unfold effectCommand
    rw [if_neg (by omega : CMD_GET_LATENCY_MS ≠ codes.INIT),
      if_neg (by omega : CMD_GET_LATENCY_MS ≠ codes.SET_CONFIG),
      if_neg (by omega : CMD_GET_LATENCY_MS ≠ codes.GET_CONFIG),
      if_neg (by omega : CMD_GET_LATENCY_MS ≠ codes.RESET),
      if_neg (by omega : CMD_GET_LATENCY_MS ≠ codes.ENABLE),
      if_neg (by omega : CMD_GET_LATENCY_MS ≠ codes.DISABLE),
      if_neg (by omega : CMD_GET_LATENCY_MS ≠ codes.GET_DESCRIPTOR),
      if_neg (by decide : CMD_GET_LATENCY_MS ≠ CMD_SET_PITCH_RATIO),
      if_pos rfl]
    simp [hbad]
  · unfold effectCommand
    rw [if_neg (by omega : CMD_GET_CPU_USAGE ≠ codes.INIT),
      if_neg (by omega : CMD_GET_CPU_USAGE ≠ codes.SET_CONFIG),
      if_neg (by omega : CMD_GET_CPU_USAGE ≠ codes.GET_CONFIG),
      if_neg (by omega : CMD_GET_CPU_USAGE ≠ codes.RESET),
      if_neg (by omega : CMD_GET_CPU_USAGE ≠ codes.ENABLE),
      if_neg (by omega : CMD_GET_CPU_USAGE ≠ codes.DISABLE),
      if_neg (by omega : CMD_GET_CPU_USAGE ≠ codes.GET_DESCRIPTOR),
      if_neg (by decide : CMD_GET_CPU_USAGE ≠ CMD_SET_PITCH_RATIO),
      if_neg (by decide : CMD_GET_CPU_USAGE ≠ CMD_GET_LATENCY_MS),
      if_pos rfl]
    simp [hbad]
  · rw [effectCommand_enable codes ⟨hnd, hsm⟩ sz O ctx cmdSize cmdData
      replySize replyNull, okReply_eq_false_of_badReply _ _ _ hbad]
    rfl
  · unfold effectCommand
    rw [if_neg (Ne.symm (hd1 codes.DISABLE (by simp))),
      if_neg (Ne.symm (hd2 codes.DISABLE (by simp))),
      if_neg (Ne.symm (hd3 codes.DISABLE (by simp))),
      if_neg (Ne.symm (hd4 codes.DISABLE (by simp))),
      if_neg (Ne.symm (hd5 codes.DISABLE (by simp))), if_pos rfl]
    rw [okReply_eq_false_of_badReply _ _ _ hbad]
    rfl
  · unfold effectCommand
    rw [if_neg (by omega : CMD_SET_PITCH_RATIO ≠ codes.INIT),
      if_neg (by omega : CMD_SET_PITCH_RATIO ≠ codes.SET_CONFIG),
      if_neg (by omega : CMD_SET_PITCH_RATIO ≠ codes.GET_CONFIG),
      if_neg (by omega : CMD_SET_PITCH_RATIO ≠ codes.RESET),
      if_neg (by omega : CMD_SET_PITCH_RATIO ≠ codes.ENABLE),
      if_neg (by omega : CMD_SET_PITCH_RATIO ≠ codes.DISABLE),
      if_neg (by omega : CMD_SET_PITCH_RATIO ≠ codes.GET_DESCRIPTOR),
      if_pos rfl]
    have hratio : ¬(ratio ≤ 0 ∨ 2 < ratio) := by push_neg; exact ⟨hr1, hr2⟩
    simp [Nat.not_lt.mpr hcs, hratio,
      okReply_eq_false_of_badReply _ _ _ hbad]

/-- Witness for C4 (amended): with a null reply-size pointer every reply
validation fails; the six guarded commands reject while ENABLE still
enables a fresh context. -/
theorem reply_validation_witness :
    (effectCommand codesX szX OX createContext codesX.INIT 0 none none
        false) =
      { status := -EINVAL, ctx := createContext, reply := none } ∧
    (effectCommand codesX szX OX createContext codesX.ENABLE 0 none none
        false) =
      { status := 0, ctx := { createContext with enabled := true },
        reply := none } := by
  have h := reply_validation codesX (by decide) szX OX createContext 0
    none none false
  exact ⟨(h.1 (by decide)).1, ((h.2.2.2.2) (by decide)).1⟩

/-- C4 counterexample.  ENABLE with a null reply pointer on a fresh
(disabled) instance: the claim demands InvalidArgument with no state
change, but the dispatcher returns 0 and flips the enabled flag. -/
theorem enable_mutates_despite_bad_reply :
    (effectCommand codesX szX OX createContext codesX.ENABLE 0 none
        (some 4) true).status = 0 ∧
    (effectCommand codesX szX OX createContext codesX.ENABLE 0 none
        (some 4) true).status ≠ -EINVAL ∧
    badReply (some 4) szX.int32 true = true ∧
    createContext.enabled = false ∧
    (effectCommand codesX szX OX createContext codesX.ENABLE 0 none
        (some 4) true).ctx.enabled = true := by
  refine ⟨rfl, ?_, by decide, rfl, rfl⟩
  intro hc
  rw [show (effectCommand codesX szX OX createContext codesX.ENABLE 0
    none (some 4) true).status = 0 from rfl] at hc
  norm_num [EINVAL] at hc

/-- Hann windowing preserves the buffer length. -/
theorem windowAux_length (O : FloatFuns) (channels sequenceSamples : ℕ) :
    ∀ (l : List ℚ) (j : ℕ),
      (STState.windowAux O channels sequenceSamples l j).length =
        l.length := by
  intro l
  induction l with
  | nil => intro j; rfl
  | cons x rest ih =>
    intro j
    simp [STState.windowAux, ih]

/-- The overlap-add pass preserves the buffer length. -/
theorem crossfadeFrame_length (st : STState) (overlapOffset : ℕ)
    (frame : List ℚ) :
    (STState.crossfadeFrame st overlapOffset frame).length =
      frame.length := by
  simp [STState.crossfadeFrame]

/-- Fields not touched by `processFrame`: the configuration scalars. -/
theorem processFrame_config (O : FloatFuns) (st : STState) :
    (STState.processFrame O st).channels = st.channels ∧
    (STState.processFrame O st).pitchSemitones = st.pitchSemitones ∧
    (STState.processFrame O st).tempo = st.tempo ∧
    (STState.processFrame O st).rate = st.rate ∧
    (STState.processFrame O st).sequenceSamples = st.sequenceSamples := by
  unfold STState.processFrame
  split <;> exact ⟨rfl, rfl, rfl, rfl, rfl⟩

/-- With unit effective rate (`tempo = rate = 1`, pitch 0, `powf(2,0)=1`),
one `processFrame` appends exactly as many samples to the output ring as
it pops from the input ring, so the total buffered samples are unchanged. -/
theorem processFrame_balance (O : FloatFuns) (st : STState)
    (h0 : O.pow2 0 = 1) (hp : st.pitchSemitones = 0) (ht : st.tempo = 1)
    (hr : st.rate = 1) :
    (STState.processFrame O st).outputBuffer.length +
        (STState.processFrame O st).inputBuffer.length =
      st.outputBuffer.length + st.inputBuffer.length := by
  unfold STState.processFrame
  by_cases hg : st.inputBuffer.length < st.sequenceSamples * st.channels
  · rw [if_pos hg]
  · rw [if_neg hg]
    have hs : st.sequenceSamples * st.channels ≤ st.inputBuffer.length :=
      Nat.le_of_not_lt hg
    have hpr :
        STState.pitchRatioFromSemitones O st.pitchSemitones = 1 := by
      unfold STState.pitchRatioFromSemitones
      rw [hp, zero_div, h0]
    have hadv :
        ratToU32 ((st.sequenceSamples : ℚ) *
            (st.rate * st.tempo /
              STState.pitchRatioFromSemitones O st.pitchSemitones)) =
          st.sequenceSamples := by
      rw [hpr, ht, hr]
      norm_num [ratToU32]
    simp only [hadv, List.length_append, List.length_drop]
    have hflen :
        ∀ frame2 : List ℚ,
          frame2.length = st.sequenceSamples * st.channels →
          (if 0 < st.inputPosition ∧ 0 < st.overlapSamples then
              STState.crossfadeFrame st
                (STState.findBestOverlapOffset st) frame2
            else frame2).length = st.sequenceSamples * st.channels := by
      intro frame2 h2
      split
      · rw [crossfadeFrame_length, h2]
      · exact h2
    rw [hflen _ (by
      rw [STState.windowFrame, windowAux_length, List.length_take]
      exact Nat.min_eq_left hs)]
    omega

/-- The drain loop preserves the total buffered samples under unit
effective rate. -/
theorem processLoop_balance (O : FloatFuns) (h0 : O.pow2 0 = 1) :
    ∀ (fuel : ℕ) (st : STState), st.pitchSemitones = 0 → st.tempo = 1 →
      st.rate = 1 →
      (STState.processLoop O fuel st).outputBuffer.length +
          (STState.processLoop O fuel st).inputBuffer.length =
        st.outputBuffer.length + st.inputBuffer.length := by
  intro fuel
  induction fuel with
  | zero => intro st hp ht hr; rfl
  | succ fuel ih =>
    intro st hp ht hr
    rw [STState.processLoop]
    split
    · obtain ⟨-, hcp, hct, hcr, -⟩ := processFrame_config O st
      rw [ih (STState.processFrame O st) (hcp.trans hp) (hct.trans ht)
        (hcr.trans hr)]
      exact processFrame_balance O st h0 hp ht hr
    · rfl

/-- Scalar configuration is unchanged by the drain loop. -/
theorem processLoop_config (O : FloatFuns) :
    ∀ (fuel : ℕ) (st : STState),
      (STState.processLoop O fuel st).channels = st.channels ∧
      (STState.processLoop O fuel st).pitchSemitones =
        st.pitchSemitones ∧
      (STState.processLoop O fuel st).tempo = st.tempo ∧
      (STState.processLoop O fuel st).rate = st.rate := by
  intro fuel
  induction fuel with
  | zero => intro st; exact ⟨rfl, rfl, rfl, rfl⟩
  | succ fuel ih =>
    intro st
    rw [STState.processLoop]
    split
    · obtain ⟨hc, hp, ht, hr, -⟩ := processFrame_config O st
      obtain ⟨ic, ip, it, ir⟩ := ih (STState.processFrame O st)
      exact ⟨ic.trans hc, ip.trans hp, it.trans ht, ir.trans hr⟩
    · exact ⟨rfl, rfl, rfl, rfl⟩

/-- One `putSamples` call under unit effective rate adds exactly the
appended sample count to the total buffered samples. -/
theorem putSamples_balance (O : FloatFuns) (st : STState) (data : List ℚ)
    (numSamples : ℕ) (h0 : O.pow2 0 = 1) (hp : st.pitchSemitones = 0)
    (ht : st.tempo = 1) (hr : st.rate = 1) :
    (STState.putSamples O st (some data) numSamples).outputBuffer.length +
        (STState.putSamples O st (some data)
          numSamples).inputBuffer.length =
      st.outputBuffer.length + st.inputBuffer.length +
        min (numSamples * st.channels) data.length := by
  unfold STState.putSamples
  by_cases hn : numSamples = 0
  · simp [hn]
  · simp only [hn, if_false]
    have hb := processLoop_balance O h0
      ((st.inputBuffer ++ List.take (numSamples * st.channels) data).length
        + 1)
      { st with inputBuffer :=
          st.inputBuffer ++ List.take (numSamples * st.channels) data }
      hp ht hr
    simp only [List.length_append, List.length_take] at hb ⊢
    omega

/-- Scalar configuration is unchanged by `putSamples`. -/
theorem putSamples_config (O : FloatFuns) (st : STState)
    (data : Option (List ℚ)) (numSamples : ℕ) :
    (STState.putSamples O st data numSamples).channels = st.channels ∧
    (STState.putSamples O st data numSamples).pitchSemitones =
      st.pitchSemitones ∧
    (STState.putSamples O st data numSamples).tempo = st.tempo ∧
    (STState.putSamples O st data numSamples).rate = st.rate := by
  unfold STState.putSamples
  rcases data with - | data
  · exact ⟨rfl, rfl, rfl, rfl⟩
  · by_cases hn : numSamples = 0
    · simp only [hn, if_pos rfl]
      exact ⟨rfl, rfl, rfl, rfl⟩
    · simp only [hn, if_false]
      exact processLoop_config O _ _

/-- Balance over a whole stream of puts under unit effective rate. -/
theorem runPuts_balance (O : FloatFuns) (h0 : O.pow2 0 = 1) :
    ∀ (chunks : List (List ℚ × ℕ)) (st : STState),
      st.pitchSemitones = 0 → st.tempo = 1 → st.rate = 1 →
      (runPuts O st chunks).outputBuffer.length +
          (runPuts O st chunks).inputBuffer.length =
        st.outputBuffer.length + st.inputBuffer.length +
          (chunks.map fun c => min (c.2 * st.channels) c.1.length).sum := by
  intro chunks
  induction chunks with
  | nil => intro st hp ht hr; simp [runPuts]
  | cons c rest ih =>
    intro st hp ht hr
    have hstep : runPuts O st (c :: rest) =
        runPuts O (STState.putSamples O st (some c.1) c.2) rest := rfl
    obtain ⟨qc, qp, qt, qr⟩ := putSamples_config O st (some c.1) c.2
    rw [hstep, ih _ (qp.trans hp) (qt.trans ht) (qr.trans hr),
      putSamples_balance O st c.1 c.2 h0 hp ht hr]
    simp only [List.map_cons, List.sum_cons, qc]
    omega

/-- C1 (amended).  For every stream of chunks fed to a cleared WSOLA
kernel with `tempo = 1`, `rate = 1` and the pitch at 0 semitones (so the
effective rate is 1; `powf(2,0) = 1` exactly), the cumulative samples the
kernel has pushed onto its output ring equal the cumulative samples it has
consumed from its input ring — equivalently, output plus still-buffered
input equals everything fed (and the same holds frame-wise after dividing
by the channel count).  This holds from the very first chunk, so in
particular after any priming prefix.  With a non-zero pitch the counts
differ (see the counterexample). -/
theorem wsola_unit_rate_balance (O : FloatFuns) (h0 : O.pow2 0 = 1)
    (st : STState) (hp : st.pitchSemitones = 0) (ht : st.tempo = 1)
    (hr : st.rate = 1) (hin : st.inputBuffer = [])
    (hout : st.outputBuffer = []) (chunks : List (List ℚ × ℕ))
    (hlen : ∀ c ∈ chunks, c.2 * st.channels ≤ c.1.length) :
    (runPuts O st chunks).outputBuffer.length =
      (chunks.map fun c => c.2 * st.channels).sum -
        (runPuts O st chunks).inputBuffer.length ∧
    (runPuts O st chunks).outputBuffer.length +
        (runPuts O st chunks).inputBuffer.length =
      (chunks.map fun c => c.2 * st.channels).sum := by
  have hb := runPuts_balance O h0 chunks st hp ht hr
  rw [hin, hout] at hb
  simp only [List.length_nil, Nat.zero_add] at hb
  have hmap : (chunks.map fun c => min (c.2 * st.channels) c.1.length) =
      chunks.map fun c => c.2 * st.channels := by
    apply List.map_congr_left
    intro c hc
    exact Nat.min_eq_left (hlen c hc)
  rw [hmap] at hb
  exact ⟨by omega, hb⟩

/-- Witness for C1 (amended): 8 mono frames through a 100 Hz kernel at
pitch 0 yield 8 output samples and an empty input ring. -/
theorem wsola_unit_rate_balance_witness :
    (runPuts OX c1KernelP0
        [(List.replicate 8 1, 8)]).outputBuffer.length =
      ([((List.replicate 8 (1 : ℚ)), 8)].map
          fun c => c.2 * c1KernelP0.channels).sum -
        (runPuts OX c1KernelP0
          [(List.replicate 8 1, 8)]).inputBuffer.length ∧
    (runPuts OX c1KernelP0
        [(List.replicate 8 1, 8)]).outputBuffer.length +
        (runPuts OX c1KernelP0
          [(List.replicate 8 1, 8)]).inputBuffer.length =
      ([((List.replicate 8 (1 : ℚ)), 8)].map
          fun c => c.2 * c1KernelP0.channels).sum :=
  wsola_unit_rate_balance OX rfl c1KernelP0 rfl rfl rfl rfl rfl
    [(List.replicate 8 1, 8)] (by decide)

/-- C1 counterexample.  A kernel with `tempo = 1` and `rate = 1` but the
pitch at −12 semitones (the state the proprietary `SET_PITCH_RATIO 0.5`
command installs; `powf(2,-1) = 1/2` exactly) consumes 8 input frames in
its first processed block while producing only 4 output frames: cumulative
output differs from cumulative consumed input even though tempo and rate
are 1, refuting the claim as stated. -/
theorem wsola_pitch_breaks_balance :
    c1Kernel.tempo = 1 ∧ c1Kernel.rate = 1 ∧ c1Kernel.channels = 1 ∧
    c1Run.outputBuffer.length = 4 ∧
    8 * c1Kernel.channels - c1Run.inputBuffer.length = 8 ∧
    c1Run.outputBuffer.length ≠
      8 * c1Kernel.channels - c1Run.inputBuffer.length := by
  with_unfolding_all decide

/-- C10 (amended).  `effectProcess` never consults the configuration
stored in the instance: for any two contexts differing only in `config`
(in particular mono versus stereo channel masks), the status, the output
buffer and the whole post-state apart from the stored config coincide —
every copy, conversion and zero-fill stage is hard-coded to 2 channels.
What does depend on the earlier SET_CONFIG is the kernel's own channel
count: `putSamples` ingests `frameCount × kernel-channels` samples, which
is `frameCount × 1` after a mono configuration (see the counterexample). -/
theorem process_ignores_stored_config (O : FloatFuns)
    (ctx : AudioShiftContext) (cfg' : EffectConfig)
    (inBuf outBuf : AudioBuffer) (samePtr : Bool) (latMs : ℚ) :
    effectProcess O { ctx with config := cfg' } inBuf outBuf samePtr
        latMs =
      { effectProcess O ctx inBuf outBuf samePtr latMs with
        ctx := { (effectProcess O ctx inBuf outBuf samePtr latMs).ctx with
          config := cfg' } } := by
  obtain ⟨cfg, en, ps, stt, fb, ll, lc, fc⟩ := ctx
  cases en
  · rfl
  · by_cases hf : inBuf.frameCount = 0 ∨
        MAX_FRAME_SIZE < inBuf.frameCount
    · simp [effectProcess, hf]
    · simp [effectProcess, hf]

/-- C10 counterexample.  Under a mono configuration (channel mask 0x1 at
100 Hz) the enabled path still converts `frameCount × 2` input samples and
produces `frameCount × 2` output samples, but the kernel ingests only
`frameCount × 1 = 3` floats — not `frameCount × 2 = 6` — so the claim that
the effect "converts and processes frame_count × 2 samples" regardless of
a mono configuration fails on the processing half. -/
theorem mono_config_kernel_ingest :
    c10ctx.soundtouch.channels = 1 ∧
    c10Result.status = 0 ∧
    c10inBuf.frameCount = 3 ∧
    c10Result.ctx.soundtouch.inputBuffer.length = 3 ∧
    c10Result.ctx.soundtouch.inputBuffer.length ≠
      c10inBuf.frameCount * 2 ∧
    c10Result.outData.length = c10inBuf.frameCount * 2 := by
  with_unfolding_all decide

/-- With unit effective rate, a zero cursor and enough buffered input,
`processFrame` reduces to: append the Hann-windowed leading block to the
output ring and drop it from the input ring — the overlap-add is skipped
because the guard `inputPosition > 0` fails. -/
theorem processFrame_unit (O : FloatFuns) (st : STState)
    (h0 : O.pow2 0 = 1) (hp : st.pitchSemitones = 0) (ht : st.tempo = 1)
    (hr : st.rate = 1) (hcur : st.inputPosition = 0)
    (hg : st.sequenceSamples * st.channels ≤ st.inputBuffer.length) :
    STState.processFrame O st =
      { st with
        outputBuffer := st.outputBuffer ++
          STState.windowFrame O st.channels st.sequenceSamples
            (st.inputBuffer.take (st.sequenceSamples * st.channels))
        inputBuffer :=
          st.inputBuffer.drop (st.sequenceSamples * st.channels)
        inputPosition := 0 } := by
  unfold STState.processFrame
  rw [if_neg (Nat.not_lt.mpr hg)]
  have hpr : STState.pitchRatioFromSemitones O st.pitchSemitones = 1 := by
    unfold STState.pitchRatioFromSemitones
    rw [hp, zero_div, h0]
  have hadv : ratToU32 ((st.sequenceSamples : ℚ) *
      (st.rate * st.tempo /
        STState.pitchRatioFromSemitones O st.pitchSemitones)) =
      st.sequenceSamples := by
    rw [hpr, ht, hr]
    norm_num [ratToU32]
  simp only [hadv, hcur, lt_self_iff_false, false_and, if_false]

/-- C3 refutation facts.  The cursor `inputPosition` is 0 in every
reachable state (it is initialised to 0, `clear` resets it, and
`processFrame` writes 0 back), so the seek window
`[max(0, cursor − seekwindow), cursor)` is always empty and
`findBestOverlapOffset` returns 0 without evaluating any correlation
(first conjunct).  Consequently the overlap-add guard `inputPosition > 0`
never holds: in the concrete two-block run (sequence 10, seek window 3,
overlap 2, pitch 0), the second processed block — exactly the situation
"after the first invocation" in which the claim asserts a cross-fade — is
pushed as the pure elementwise Hann-windowed copy of input samples
11…20, with no linear fade mixing in the spliced history (third
conjunct), and the cursor is still 0 afterwards (second conjunct). -/
theorem processFrame_never_crossfades (O : FloatFuns)
    (h0 : O.pow2 0 = 1) :
    (∀ st : STState, st.inputPosition = 0 →
        STState.findBestOverlapOffset st = 0) ∧
    (STState.putSamples O c3Kernel (some c3Data) 20).inputPosition = 0 ∧
    (STState.putSamples O c3Kernel (some c3Data) 20).outputBuffer =
      [1 * O.hann 0 10, 2 * O.hann 1 10, 3 * O.hann 2 10,
       4 * O.hann 3 10, 5 * O.hann 4 10, 6 * O.hann 5 10,
       7 * O.hann 6 10, 8 * O.hann 7 10, 9 * O.hann 8 10,
       10 * O.hann 9 10, 11 * O.hann 0 10, 12 * O.hann 1 10,
       13 * O.hann 2 10, 14 * O.hann 3 10, 15 * O.hann 4 10,
       16 * O.hann 5 10, 17 * O.hann 6 10, 18 * O.hann 7 10,
       19 * O.hann 8 10, 20 * O.hann 9 10] := by
  have hoff : ∀ st : STState, st.inputPosition = 0 →
      STState.findBestOverlapOffset st = 0 := by
    intro st h
    unfold STState.findBestOverlapOffset
    split
    · rfl
    · simp [h, Nat.zero_sub]
  have hseq : c3Kernel.sequenceSamples = 10 := by with_unfolding_all rfl
  have hch : c3Kernel.channels = 1 := rfl
  have e0 : STState.putSamples O c3Kernel (some c3Data) 20 =
      STState.processLoop O 21 { c3Kernel with inputBuffer := c3Data } :=
    rfl
  have g1 : ({ c3Kernel with inputBuffer := c3Data } :
      STState).sequenceSamples *
      ({ c3Kernel with inputBuffer := c3Data } : STState).channels ≤
      ({ c3Kernel with
        inputBuffer := c3Data } : STState).inputBuffer.length := by
    with_unfolding_all decide
  have e1 : STState.processLoop O 21
      { c3Kernel with inputBuffer := c3Data } =
      STState.processLoop O 20 (STState.processFrame O
        { c3Kernel with inputBuffer := c3Data }) := by
    rw [show (21 : ℕ) = 20 + 1 from rfl, STState.processLoop, if_pos g1]
  have f1 : STState.processFrame O
      { c3Kernel with inputBuffer := c3Data } =
      { c3Kernel with
        outputBuffer := [] ++ STState.windowFrame O 1 10 (c3Data.take 10)
        inputBuffer := c3Data.drop 10
        inputPosition := 0 } := by
    rw [processFrame_unit O _ h0 rfl rfl rfl rfl g1]
    with_unfolding_all rfl
  have f2 : STState.processFrame O
      { c3Kernel with
        outputBuffer := [] ++ STState.windowFrame O 1 10 (c3Data.take 10)
        inputBuffer := c3Data.drop 10
        inputPosition := 0 } =
      { c3Kernel with
        outputBuffer :=
          ([] ++ STState.windowFrame O 1 10 (c3Data.take 10)) ++
            STState.windowFrame O 1 10 ((c3Data.drop 10).take 10)
        inputBuffer := (c3Data.drop 10).drop 10
        inputPosition := 0 } := by
    rw [processFrame_unit O _ h0 rfl rfl rfl rfl
      (by with_unfolding_all exact (by decide : (10 : ℕ) * 1 ≤ 10))]
    with_unfolding_all rfl
  have etail : STState.processLoop O 20 (STState.processFrame O
      { c3Kernel with inputBuffer := c3Data }) =
      { c3Kernel with
        outputBuffer :=
          ([] ++ STState.windowFrame O 1 10 (c3Data.take 10)) ++
            STState.windowFrame O 1 10 ((c3Data.drop 10).take 10)
        inputBuffer := (c3Data.drop 10).drop 10
        inputPosition := 0 } := by
    rw [f1, show (20 : ℕ) = 19 + 1 from rfl, STState.processLoop,
      if_pos (by with_unfolding_all exact
        (by decide : (10 : ℕ) * 1 ≤ 10)), f2,
      show (19 : ℕ) = 18 + 1 from rfl, STState.processLoop,
      if_neg (by with_unfolding_all exact
        (by decide : ¬ ((10 : ℕ) * 1 ≤ 0)))]
  refine ⟨hoff, ?_, ?_⟩
  · rw [e0, e1, etail]
  · rw [e0, e1, etail]
    show ([] ++ STState.windowFrame O 1 10 (c3Data.take 10)) ++
        STState.windowFrame O 1 10 ((c3Data.drop 10).take 10) = _
    rfl

/-- Witness for the C3 refutation facts at a concrete oracle. -/
theorem processFrame_never_crossfades_witness :
    OX.pow2 0 = 1 ∧
    (STState.putSamples OX c3Kernel (some c3Data) 20).inputPosition = 0 ∧
    (STState.putSamples OX c3Kernel (some c3Data) 20).outputBuffer =
      [1 * OX.hann 0 10, 2 * OX.hann 1 10, 3 * OX.hann 2 10,
       4 * OX.hann 3 10, 5 * OX.hann 4 10, 6 * OX.hann 5 10,
       7 * OX.hann 6 10, 8 * OX.hann 7 10, 9 * OX.hann 8 10,
       10 * OX.hann 9 10, 11 * OX.hann 0 10, 12 * OX.hann 1 10,
       13 * OX.hann 2 10, 14 * OX.hann 3 10, 15 * OX.hann 4 10,
       16 * OX.hann 5 10, 17 * OX.hann 6 10, 18 * OX.hann 7 10,
       19 * OX.hann 8 10, 20 * OX.hann 9 10] :=
  ⟨rfl, (processFrame_never_crossfades OX rfl).2.1,
    (processFrame_never_crossfades OX rfl).2.2⟩

/-- C5 failing-input evaluation.  In the enabled run `c5Result`
(100 Hz stereo kernel at pitch ratio 0.5, 10 stereo frames of constant
1024 fed to a fresh instance), `receiveSamples` returns 8 — a count of raw
floats, i.e. only 4 stereo frames — while the hook interprets it as 8
frames: the zero-fill covers only scratch samples 16…19, so output samples
8…15 keep the converted-but-unprocessed input (1024, the raw input
sample), which reaches the int16 output.  The output is therefore NOT
"exactly the received processed frames followed by silence": the middle
third is residue of the unprocessed input. -/
theorem receive_counts_floats_not_frames :
    c5ctx.enabled = true ∧
    c5ctx.soundtouch.channels = 2 ∧
    c5inBuf.frameCount = 10 ∧
    (STState.receiveSamples
        (STState.putSamples Ohalf c5ctx.soundtouch
          (some (writePrefix c5ctx.floatBuf
            (pcm16ToFloat c5inBuf.data 10 2))) 10) 10).1 = 8 ∧
    c5Result.status = 0 ∧
    c5Result.outData =
      ([0, 0, 768, 768, 768, 768, 0, 0] ++ List.replicate 8 1024 ++
        List.replicate 4 0 : List ℤ) ∧
    c5Result.outData.getD 8 0 = 1024 ∧
    c5inBuf.data.getD 8 0 = 1024 ∧
    c5Result.outData.getD 8 0 ≠ 0 := by
  with_unfolding_all decide

/-- The Hann pass of the validator preserves the signal length. -/
theorem hannAux_length (norm : ℝ) :
    ∀ (l : List ℝ) (n : ℕ), (hannAux norm l n).length = l.length := by
  intro l
  induction l with
  | nil => intro n; rfl
  | cons x rest ih => intro n; simp [hannAux, ih]

/-- Windowing preserves the signal length. -/
theorem applyHannWindowInternal_length (signal : List ℝ) :
    (applyHannWindowInternal signal).length = signal.length := by
  unfold applyHannWindowInternal
  exact hannAux_length _ signal 0

/-- The magnitude spectrum has `N/2 + 1` bins. -/
theorem computeDftMagnitude_length (signal : List ℝ) :
    (computeDftMagnitude signal).length = signal.length / 2 + 1 := by
  unfold computeDftMagnitude
  exact (List.length_map _ _).trans (List.length_range _)

/-- The peak bin search scans only bins `1 … size−2`, so its result is
never a spectrum boundary when the spectrum has at least 3 bins. -/
theorem findPeakBin_bounds (mag : List ℝ) (h3 : 3 ≤ mag.length) :
    1 ≤ findPeakBin mag ∧ findPeakBin mag + 1 < mag.length := by
  unfold findPeakBin
  have hgen : ∀ (l : List ℕ) (acc : ℕ),
      (∀ k ∈ l, 1 ≤ k ∧ k + 1 < mag.length) →
      (1 ≤ acc ∧ acc + 1 < mag.length) →
      1 ≤ l.foldl
          (fun peak k =>
            if mag.getD peak 0 < mag.getD k 0 then k else peak) acc ∧
        (l.foldl
          (fun peak k =>
            if mag.getD peak 0 < mag.getD k 0 then k else peak) acc) +
          1 < mag.length := by
    intro l
    induction l with
    | nil => intro acc hl hacc; exact hacc
    | cons a rest ih =>
      intro acc hl hacc
      simp only [List.foldl_cons]
      apply ih
      · intro k hk; exact hl k (List.mem_cons_of_mem a hk)
      · split
        · exact hl a (List.mem_cons_self a rest)
        · exact hacc
  apply hgen
  · intro k hk
    rw [List.mem_range'_1] at hk
    omega
  · omega

/-- C8 (amended).  `detectFrequency` returns 0 whenever the signal has
fewer than 4 samples, the sample rate is 0, or the RMS energy is below
1e-6; in every other case the peak bin lies strictly inside the spectrum
(`1 ≤ k*` and `k* + 1 < N/2 + 1`), so the boundary fallback of the refiner
is unreachable — and even that fallback returns the unrefined bin
frequency, not 0 — and the result is `refinePeakInternal` at that interior
peak; when the curvature is non-negative this is the unrefined
`k* · sr / N`, which is strictly positive.  (With negative curvature the
refined value can be non-positive; see the counterexample.) -/
theorem detect_zero_cases_and_interior_peak :
    (∀ (sig : List ℝ) (sr : ℕ), sig.length < 4 →
      detectFrequency sig sr = 0) ∧
    (∀ sig : List ℝ, detectFrequency sig 0 = 0) ∧
    (∀ (sig : List ℝ) (sr : ℕ), rmsEnergy sig < 1e-6 →
      detectFrequency sig sr = 0) ∧
    (∀ (sig : List ℝ) (sr : ℕ), 4 ≤ sig.length → sr ≠ 0 →
      ¬ rmsEnergy sig < 1e-6 →
      let mag := computeDftMagnitude (applyHannWindowInternal sig)
      let peak := findPeakBin mag
      (1 ≤ peak ∧ peak + 1 < mag.length) ∧
      detectFrequency sig sr =
        refinePeakInternal mag peak sr sig.length ∧
      (0 ≤ mag.getD (peak - 1) 0 - 2 * mag.getD peak 0 +
          mag.getD (peak + 1) 0 →
        detectFrequency sig sr =
          (peak : ℝ) * (sr : ℝ) / (sig.length : ℝ) ∧
        0 < (peak : ℝ) * (sr : ℝ) / (sig.length : ℝ))) := by
  refine ⟨?_, ?_, ?_, ?_⟩
  · intro sig sr h
    unfold detectFrequency
    rw [if_pos (Or.inl h)]
  · intro sig
    unfold detectFrequency
    rw [if_pos (Or.inr rfl)]
  · intro sig sr h
    unfold detectFrequency
    by_cases h1 : sig.length < 4 ∨ sr = 0
    · rw [if_pos h1]
    · rw [if_neg h1, if_pos h]
  · intro sig sr hlen hsr hrms
    dsimp only
    have hmlen : (computeDftMagnitude
        (applyHannWindowInternal sig)).length = sig.length / 2 + 1 := by
      rw [computeDftMagnitude_length, applyHannWindowInternal_length]
    have h3 : 3 ≤ (computeDftMagnitude
        (applyHannWindowInternal sig)).length := by
      rw [hmlen]; omega
    obtain ⟨hp1, hp2⟩ := findPeakBin_bounds _ h3
    have hdet : detectFrequency sig sr =
        refinePeakInternal (computeDftMagnitude
            (applyHannWindowInternal sig))
          (findPeakBin (computeDftMagnitude
            (applyHannWindowInternal sig))) sr sig.length := by
      unfold detectFrequency
      rw [if_neg (by push_neg; exact ⟨by omega, hsr⟩), if_neg hrms,
        if_neg (by omega)]
    refine ⟨⟨hp1, hp2⟩, hdet, fun hcurv => ?_⟩
    have hne : ¬ (findPeakBin (computeDftMagnitude
        (applyHannWindowInternal sig)) = 0 ∨
        (computeDftMagnitude (applyHannWindowInternal sig)).length ≤
          findPeakBin (computeDftMagnitude
            (applyHannWindowInternal sig)) + 1) := by
      push_neg
      exact ⟨by omega, by omega⟩
    constructor
    · rw [hdet]
      unfold refinePeakInternal
      rw [if_neg hne, if_pos hcurv]
    · have hps : (0 : ℝ) < (findPeakBin (computeDftMagnitude
          (applyHannWindowInternal sig)) : ℝ) := by
        exact_mod_cast Nat.lt_of_lt_of_le Nat.zero_lt_one hp1
      have hsr' : (0 : ℝ) < (sr : ℝ) := by
        exact_mod_cast Nat.pos_of_ne_zero hsr
      have hlen' : (0 : ℝ) < (sig.length : ℝ) := by
        exact_mod_cast (by omega : 0 < sig.length)
      positivity

/-- Witness for C8 (amended) at concrete inputs: a 1-sample signal and a
zero sample rate are rejected with 0. -/
theorem detect_zero_cases_witness :
    detectFrequency [(1 : ℝ)] 48000 = 0 ∧ detectFrequency dSig 0 = 0 :=
  ⟨detect_zero_cases_and_interior_peak.1 [(1 : ℝ)] 48000 (by norm_num),
    detect_zero_cases_and_interior_peak.2.1 dSig⟩

/-- C8 counterexample.  On the 4-sample signal `[0, 3, 4, 0]` at 48 kHz,
none of the failure conditions hold (N = 4, sr ≠ 0, RMS = 5/2 ≥ 1e-6) and
the peak bin 1 is interior, yet `detectFrequency` returns −6000 — a
negative value, so the claim "otherwise returns a single positive
frequency estimate" is false; and since boundary peaks cannot occur (and
the boundary fallback would return `k*·sr/N`, not 0), "returns 0 … when
the peak is at a spectrum boundary" never happens either.  All spectrum
values at N = 4 are exact: the Hann window is `(0, 3/4, 3/4, 0)` and the
DFT angles are multiples of `π/2`. -/
theorem detect_frequency_returns_negative :
    ¬ dSig.length < 4 ∧ (48000 : ℕ) ≠ 0 ∧ ¬ rmsEnergy dSig < 1e-6 ∧
    1 ≤ findPeakBin (computeDftMagnitude (applyHannWindowInternal dSig)) ∧
    findPeakBin (computeDftMagnitude (applyHannWindowInternal dSig)) + 1 <
      (computeDftMagnitude (applyHannWindowInternal dSig)).length ∧
    detectFrequency dSig 48000 = -6000 ∧
    detectFrequency dSig 48000 < 0 := by
  have hw : applyHannWindowInternal dSig = [0, 9 / 4, 3, 0] := by
    have hc1 : Real.cos (2 * Real.pi / 3) = -(1 / 2) := by
      rw [show (2 * Real.pi / 3 : ℝ) = Real.pi - Real.pi / 3 by ring,
        Real.cos_pi_sub, Real.cos_pi_div_three]
    have hc2 : Real.cos (2 * Real.pi / 3 * 2) = -(1 / 2) := by
      rw [show (2 * Real.pi / 3 * 2 : ℝ) = Real.pi + Real.pi / 3 by ring,
        Real.cos_add, Real.cos_pi, Real.sin_pi, Real.cos_pi_div_three]
      ring
    unfold dSig applyHannWindowInternal
    norm_num [hannAux]
    constructor
    · rw [hc1]; norm_num
    · rw [hc2]; norm_num
  have hmag : computeDftMagnitude [0, 9 / 4, 3, 0] =
      [21 / 4, 15 / 4, 3 / 4] := by
    unfold computeDftMagnitude
    norm_num [List.range_succ, dftSums]
    rw [show (2 * Real.pi / 4 * 2 * 2 : ℝ) = 2 * Real.pi by ring,
      show (2 * Real.pi / 4 * 2 : ℝ) = Real.pi by ring,
      show (2 * Real.pi / 4 : ℝ) = Real.pi / 2 by ring]
    simp only [Real.cos_pi_div_two, Real.sin_pi_div_two, Real.cos_pi,
      Real.sin_pi, Real.cos_two_pi, Real.sin_two_pi]
    norm_num
    rw [show (441 : ℝ) = 21 ^ 2 by norm_num,
      show (225 : ℝ) = 15 ^ 2 by norm_num,
      show (9 : ℝ) = 3 ^ 2 by norm_num,
      show (16 : ℝ) = 4 ^ 2 by norm_num,
      Real.sqrt_sq (by norm_num : (0 : ℝ) ≤ 21),
      Real.sqrt_sq (by norm_num : (0 : ℝ) ≤ 15),
      Real.sqrt_sq (by norm_num : (0 : ℝ) ≤ 3),
      Real.sqrt_sq (by norm_num : (0 : ℝ) ≤ 4)]
    norm_num
  have hrms : rmsEnergy dSig = 5 / 2 := by
    unfold dSig rmsEnergy
    rw [if_neg (by simp)]
    norm_num
    rw [show (25 : ℝ) = 5 ^ 2 by norm_num,
      show (4 : ℝ) = 2 ^ 2 by norm_num,
      Real.sqrt_sq (by norm_num : (0 : ℝ) ≤ 5),
      Real.sqrt_sq (by norm_num : (0 : ℝ) ≤ 2)]
  have hpk : findPeakBin [21 / 4, 15 / 4, 3 / 4] = 1 := by
    norm_num [findPeakBin]
  have href : refinePeakInternal [21 / 4, 15 / 4, 3 / 4] 1 48000 4 =
      -6000 := by
    norm_num [refinePeakInternal]
  have hdet : detectFrequency dSig 48000 = -6000 := by
    unfold detectFrequency
    rw [if_neg (by norm_num [dSig]), hrms, if_neg (by norm_num)]
    dsimp only
    rw [hw, hmag, if_neg (by norm_num), hpk]
    exact href
  refine ⟨by norm_num [dSig], by norm_num, ?_, ?_, ?_, hdet, ?_⟩
  · rw [hrms]; norm_num
  · rw [hw, hmag, hpk]
  · rw [hw, hmag, hpk]; norm_num
  · rw [hdet]; norm_num

end AudioShift
